import Mathlib

/-!
# Input polling of the SDL desktop backend (`src/platforms/rcore_desktop_sdl.c`)

A shallow embedding of `ConvertScancodeToKey` and `PollInputEvents`, and the
properties of the per-frame input-state update that follow from the code;
then of the window-state functions (`SetWindowState`, `ClearWindowState`,
`ToggleBorderlessWindowed`) and of `SetWindowIcon`, as the calls they issue.

Conventions of the embedding:

* C `int`, `char` and enumeration values are `Int`; the `Uint8` button id of a
  mouse-button event is a `Nat`.
* A fixed-size C array of `n` elements is a function on `Fin n`.  Every array
  access goes through `readAt` / `writeAt`, which take the C index as an `Int`
  and fail with `Fault.outOfBounds` when it is outside `[0, n)`.
* `float` is an arbitrary type `F`; the C conversion `(float)i` of an integer is
  the parameter `toFloat : Int → F`, and the literal `0.0f` is `toFloat 0`.
* The SDL event queue drained by `SDL_PollEvent` is the list of pending events,
  oldest first.
-/

namespace RcoreDesktopSDL

/-! ## Constants of `raylib.h` / `rcore.h` -/

/-- Modelled from the spec: the `KeyboardKey` enumeration of `raylib.h` is not
under `src/`.  The spec fixes the no-key sentinel as the zero value; the other
enumerators carry the values of the upstream header. -/
def KEY_NULL : Int := 0
def KEY_APOSTROPHE : Int := 39
def KEY_COMMA : Int := 44
def KEY_MINUS : Int := 45
def KEY_PERIOD : Int := 46
def KEY_SLASH : Int := 47
def KEY_ZERO : Int := 48
def KEY_ONE : Int := 49
def KEY_TWO : Int := 50
def KEY_THREE : Int := 51
def KEY_FOUR : Int := 52
def KEY_FIVE : Int := 53
def KEY_SIX : Int := 54
def KEY_SEVEN : Int := 55
def KEY_EIGHT : Int := 56
def KEY_NINE : Int := 57
def KEY_SEMICOLON : Int := 59
def KEY_EQUAL : Int := 61
def KEY_A : Int := 65
def KEY_B : Int := 66
def KEY_C : Int := 67
def KEY_D : Int := 68
def KEY_E : Int := 69
def KEY_F : Int := 70
def KEY_G : Int := 71
def KEY_H : Int := 72
def KEY_I : Int := 73
def KEY_J : Int := 74
def KEY_K : Int := 75
def KEY_L : Int := 76
def KEY_M : Int := 77
def KEY_N : Int := 78
def KEY_O : Int := 79
def KEY_P : Int := 80
def KEY_Q : Int := 81
def KEY_R : Int := 82
def KEY_S : Int := 83
def KEY_T : Int := 84
def KEY_U : Int := 85
def KEY_V : Int := 86
def KEY_W : Int := 87
def KEY_X : Int := 88
def KEY_Y : Int := 89
def KEY_Z : Int := 90
def KEY_LEFT_BRACKET : Int := 91
def KEY_BACKSLASH : Int := 92
def KEY_RIGHT_BRACKET : Int := 93
def KEY_GRAVE : Int := 96
def KEY_SPACE : Int := 32
def KEY_ESCAPE : Int := 256
def KEY_ENTER : Int := 257
def KEY_TAB : Int := 258
def KEY_BACKSPACE : Int := 259
def KEY_INSERT : Int := 260
def KEY_DELETE : Int := 261
def KEY_RIGHT : Int := 262
def KEY_LEFT : Int := 263
def KEY_DOWN : Int := 264
def KEY_UP : Int := 265
def KEY_PAGE_UP : Int := 266
def KEY_PAGE_DOWN : Int := 267
def KEY_HOME : Int := 268
def KEY_END : Int := 269
def KEY_CAPS_LOCK : Int := 280
def KEY_SCROLL_LOCK : Int := 281
def KEY_NUM_LOCK : Int := 282
def KEY_PRINT_SCREEN : Int := 283
def KEY_PAUSE : Int := 284
def KEY_F1 : Int := 290
def KEY_F2 : Int := 291
def KEY_F3 : Int := 292
def KEY_F4 : Int := 293
def KEY_F5 : Int := 294
def KEY_F6 : Int := 295
def KEY_F7 : Int := 296
def KEY_F8 : Int := 297
def KEY_F9 : Int := 298
def KEY_F10 : Int := 299
def KEY_F11 : Int := 300
def KEY_F12 : Int := 301
def KEY_KP_0 : Int := 320
def KEY_KP_1 : Int := 321
def KEY_KP_2 : Int := 322
def KEY_KP_3 : Int := 323
def KEY_KP_4 : Int := 324
def KEY_KP_5 : Int := 325
def KEY_KP_6 : Int := 326
def KEY_KP_7 : Int := 327
def KEY_KP_8 : Int := 328
def KEY_KP_9 : Int := 329
def KEY_KP_DECIMAL : Int := 330
def KEY_KP_DIVIDE : Int := 331
def KEY_KP_MULTIPLY : Int := 332
def KEY_KP_SUBTRACT : Int := 333
def KEY_KP_ADD : Int := 334
def KEY_KP_ENTER : Int := 335

/-- Modelled from the spec: `GAMEPAD_BUTTON_UNKNOWN` (`raylib.h`, not under
`src/`) is the "unknown" sentinel of the gamepad last-button field; upstream it
is the zero enumerator. -/
def GAMEPAD_BUTTON_UNKNOWN : Int := 0

/-- Modelled from the spec: the fixed sizes of the per-device arrays are macros
of `rcore.h`, which is not under `src/`; they carry the upstream values. -/
def MAX_KEYBOARD_KEYS : Nat := 512
def MAX_MOUSE_BUTTONS : Nat := 8
def MAX_GAMEPADS : Nat := 4
def MAX_TOUCH_POINTS : Nat := 8

/-! ## Scancode translation (lines 79-181 and 1192-1199) -/

def SCANCODE_MAPPED_NUM : Nat := 100

/-- The static table `ScancodeToKey`, one entry per initializer, in source
order; the index is the SDL scancode. -/
def ScancodeToKey : List Int := [
  KEY_NULL,           -- SDL_SCANCODE_UNKNOWN
  0,
  0,
  0,
  KEY_A,              -- SDL_SCANCODE_A
  KEY_B,              -- SDL_SCANCODE_B
  KEY_C,              -- SDL_SCANCODE_C
  KEY_D,              -- SDL_SCANCODE_D
  KEY_E,              -- SDL_SCANCODE_E
  KEY_F,              -- SDL_SCANCODE_F
  KEY_G,              -- SDL_SCANCODE_G
  KEY_H,              -- SDL_SCANCODE_H
  KEY_I,              -- SDL_SCANCODE_I
  KEY_J,              -- SDL_SCANCODE_J
  KEY_K,              -- SDL_SCANCODE_K
  KEY_L,              -- SDL_SCANCODE_L
  KEY_M,              -- SDL_SCANCODE_M
  KEY_N,              -- SDL_SCANCODE_N
  KEY_O,              -- SDL_SCANCODE_O
  KEY_P,              -- SDL_SCANCODE_P
  KEY_Q,              -- SDL_SCANCODE_Q
  KEY_R,              -- SDL_SCANCODE_R
  KEY_S,              -- SDL_SCANCODE_S
  KEY_T,              -- SDL_SCANCODE_T
  KEY_U,              -- SDL_SCANCODE_U
  KEY_V,              -- SDL_SCANCODE_V
  KEY_W,              -- SDL_SCANCODE_W
  KEY_X,              -- SDL_SCANCODE_X
  KEY_Y,              -- SDL_SCANCODE_Y
  KEY_Z,              -- SDL_SCANCODE_Z
  KEY_ONE,            -- SDL_SCANCODE_1
  KEY_TWO,            -- SDL_SCANCODE_2
  KEY_THREE,          -- SDL_SCANCODE_3
  KEY_FOUR,           -- SDL_SCANCODE_4
  KEY_FIVE,           -- SDL_SCANCODE_5
  KEY_SIX,            -- SDL_SCANCODE_6
  KEY_SEVEN,          -- SDL_SCANCODE_7
  KEY_EIGHT,          -- SDL_SCANCODE_8
  KEY_NINE,           -- SDL_SCANCODE_9
  KEY_ZERO,           -- SDL_SCANCODE_0
  KEY_ENTER,          -- SDL_SCANCODE_RETURN
  KEY_ESCAPE,         -- SDL_SCANCODE_ESCAPE
  KEY_BACKSPACE,      -- SDL_SCANCODE_BACKSPACE
  KEY_TAB,            -- SDL_SCANCODE_TAB
  KEY_SPACE,          -- SDL_SCANCODE_SPACE
  KEY_MINUS,          -- SDL_SCANCODE_MINUS
  KEY_EQUAL,          -- SDL_SCANCODE_EQUALS
  KEY_LEFT_BRACKET,   -- SDL_SCANCODE_LEFTBRACKET
  KEY_RIGHT_BRACKET,  -- SDL_SCANCODE_RIGHTBRACKET
  KEY_BACKSLASH,      -- SDL_SCANCODE_BACKSLASH
  0,                  -- SDL_SCANCODE_NONUSHASH
  KEY_SEMICOLON,      -- SDL_SCANCODE_SEMICOLON
  KEY_APOSTROPHE,     -- SDL_SCANCODE_APOSTROPHE
  KEY_GRAVE,          -- SDL_SCANCODE_GRAVE
  KEY_COMMA,          -- SDL_SCANCODE_COMMA
  KEY_PERIOD,         -- SDL_SCANCODE_PERIOD
  KEY_SLASH,          -- SDL_SCANCODE_SLASH
  KEY_CAPS_LOCK,      -- SDL_SCANCODE_CAPSLOCK
  KEY_F1,             -- SDL_SCANCODE_F1
  KEY_F2,             -- SDL_SCANCODE_F2
  KEY_F3,             -- SDL_SCANCODE_F3
  KEY_F4,             -- SDL_SCANCODE_F4
  KEY_F5,             -- SDL_SCANCODE_F5
  KEY_F6,             -- SDL_SCANCODE_F6
  KEY_F7,             -- SDL_SCANCODE_F7
  KEY_F8,             -- SDL_SCANCODE_F8
  KEY_F9,             -- SDL_SCANCODE_F9
  KEY_F10,            -- SDL_SCANCODE_F10
  KEY_F11,            -- SDL_SCANCODE_F11
  KEY_F12,            -- SDL_SCANCODE_F12
  KEY_PRINT_SCREEN,   -- SDL_SCANCODE_PRINTSCREEN
  KEY_SCROLL_LOCK,    -- SDL_SCANCODE_SCROLLLOCK
  KEY_PAUSE,          -- SDL_SCANCODE_PAUSE
  KEY_INSERT,         -- SDL_SCANCODE_INSERT
  KEY_HOME,           -- SDL_SCANCODE_HOME
  KEY_PAGE_UP,        -- SDL_SCANCODE_PAGEUP
  KEY_DELETE,         -- SDL_SCANCODE_DELETE
  KEY_END,            -- SDL_SCANCODE_END
  KEY_PAGE_DOWN,      -- SDL_SCANCODE_PAGEDOWN
  KEY_RIGHT,          -- SDL_SCANCODE_RIGHT
  KEY_LEFT,           -- SDL_SCANCODE_LEFT
  KEY_DOWN,           -- SDL_SCANCODE_DOWN
  KEY_UP,             -- SDL_SCANCODE_UP
  KEY_NUM_LOCK,       -- SDL_SCANCODE_NUMLOCKCLEAR
  KEY_KP_DIVIDE,      -- SDL_SCANCODE_KP_DIVIDE
  KEY_KP_MULTIPLY,    -- SDL_SCANCODE_KP_MULTIPLY
  KEY_KP_SUBTRACT,    -- SDL_SCANCODE_KP_MINUS
  KEY_KP_ADD,         -- SDL_SCANCODE_KP_PLUS
  KEY_KP_ENTER,       -- SDL_SCANCODE_KP_ENTER
  KEY_KP_1,           -- SDL_SCANCODE_KP_1
  KEY_KP_2,           -- SDL_SCANCODE_KP_2
  KEY_KP_3,           -- SDL_SCANCODE_KP_3
  KEY_KP_4,           -- SDL_SCANCODE_KP_4
  KEY_KP_5,           -- SDL_SCANCODE_KP_5
  KEY_KP_6,           -- SDL_SCANCODE_KP_6
  KEY_KP_7,           -- SDL_SCANCODE_KP_7
  KEY_KP_8,           -- SDL_SCANCODE_KP_8
  KEY_KP_9,           -- SDL_SCANCODE_KP_9
  KEY_KP_0,           -- SDL_SCANCODE_KP_0
  KEY_KP_DECIMAL      -- SDL_SCANCODE_KP_PERIOD
]

/-- `ConvertScancodeToKey`: the table entry for an in-range scancode, `KEY_NULL`
otherwise.  A C array declared with `SCANCODE_MAPPED_NUM` elements holds zero in
every slot its initializer list does not reach, hence the default of the lookup. -/
def ConvertScancodeToKey (sdlScancode : Int) : Int :=
  if 0 ≤ sdlScancode ∧ sdlScancode < SCANCODE_MAPPED_NUM then
    ScancodeToKey.getD sdlScancode.toNat 0
  else
    KEY_NULL -- No equivalent key in Raylib

/-! ## State: the parts of `CORE` and `platform` that input polling touches -/

/-- The one way a step of the embedding can fail: an array index outside the
array. -/
inductive Fault where
  | outOfBounds
  deriving DecidableEq, Repr

/-- A C array of `n` integer elements. -/
abbrev CArray (n : Nat) : Type := Fin n → Int

/-- Read `a[i]`. -/
def readAt {n : Nat} (a : CArray n) (i : Int) : Except Fault Int :=
  if h : 0 ≤ i ∧ i < n then .ok (a ⟨i.toNat, by omega⟩) else .error .outOfBounds

/-- Store `a[i] = v`. -/
def writeAt {n : Nat} (a : CArray n) (i : Int) (v : Int) : Except Fault (CArray n) :=
  if h : 0 ≤ i ∧ i < n then .ok (Function.update a ⟨i.toNat, by omega⟩ v)
  else .error .outOfBounds

/-- A C loop `for (int i = 0; i < n; i++) body`, the iterations run in
increasing order of `i`. -/
def forLoop {σ : Type} (n : Nat) (body : Nat → σ → Except Fault σ) (s : σ) :
    Except Fault σ :=
  match n with
  | 0 => .ok s
  | k + 1 => forLoop k body s >>= body k

structure Vector2 (F : Type) where
  x : F
  y : F

/-- Modelled from the spec: the `CoreData` type of `rcore.h` is not under
`src/`.  The structures below hold the fields the spec's data model lists and
`PollInputEvents` names, under the names the source uses for them
(`CORE.Input.Keyboard.currentKeyState` and so on). -/
structure KeyboardData where
  exitKey : Int
  currentKeyState : CArray MAX_KEYBOARD_KEYS
  previousKeyState : CArray MAX_KEYBOARD_KEYS
  keyRepeatInFrame : CArray MAX_KEYBOARD_KEYS
  keyPressedQueueCount : Int
  charPressedQueueCount : Int

structure MouseData (F : Type) where
  currentPosition : Vector2 F
  previousPosition : Vector2 F
  cursor : Int
  cursorHidden : Bool
  currentButtonState : CArray MAX_MOUSE_BUTTONS
  previousButtonState : CArray MAX_MOUSE_BUTTONS
  currentWheelMove : Vector2 F
  previousWheelMove : Vector2 F

structure GamepadData where
  lastButtonPressed : Int
  axisCount : CArray MAX_GAMEPADS

structure TouchData where
  currentTouchState : CArray MAX_TOUCH_POINTS
  previousTouchState : CArray MAX_TOUCH_POINTS

structure InputData (F : Type) where
  Keyboard : KeyboardData
  Mouse : MouseData F
  Gamepad : GamepadData
  Touch : TouchData

structure WindowData where
  flags : Nat
  ready : Bool
  shouldClose : Bool

structure CoreData (F : Type) where
  Window : WindowData
  Input : InputData F

/-- The field of `PlatformData` (lines 60-67) that input polling reads. -/
structure PlatformData where
  cursorRelative : Bool

/-- The two globals `CORE` and `platform`. -/
structure State (F : Type) where
  CORE : CoreData F
  platform : PlatformData

/-- The tagged record `SDL_Event`, with the fields `PollInputEvents` reads:
one constructor per `case` label of its `switch`, and `other` for every event
type that reaches `default`. -/
inductive SDL_Event where
  | quit                                           -- SDL_QUIT
  | window (event : Nat)                           -- SDL_WINDOWEVENT, event.window.event
  | keyDown (scancode : Int)                       -- SDL_KEYDOWN, event.key.keysym.scancode
  | keyUp (scancode : Int)                         -- SDL_KEYUP
  | mouseButtonDown (button : Nat)                 -- SDL_MOUSEBUTTONDOWN, event.button.button
  | mouseButtonUp (button : Nat)                   -- SDL_MOUSEBUTTONUP
  | mouseWheel (x y : Int)                         -- SDL_MOUSEWHEEL, event.wheel.x / .y
  | mouseMotion (x y xrel yrel : Int)              -- SDL_MOUSEMOTION, event.motion.*
  | joyAxisMotion (which : Int) (axis : Nat)       -- SDL_JOYAXISMOTION, event.jaxis.*
  | other (type : Nat)
  deriving DecidableEq, Repr

/-! ## `PollInputEvents` (lines 911-1065) -/

section Poll

variable {F : Type} (toFloat : Int → F)

/-- Lines 919-955: the per-frame resets and the copy of every "current" array
into its "previous" array, statement by statement.  (`UpdateGestures`, compiled
in under `SUPPORT_GESTURES_SYSTEM`, works on the gesture module's own state and
is outside this model.) -/
def resetFrameState (s : State F) : Except Fault (State F) := do
  -- Reset keys/chars pressed registered
  let s := { s with CORE.Input.Keyboard.keyPressedQueueCount := 0 }
  let s := { s with CORE.Input.Keyboard.charPressedQueueCount := 0 }
  -- Reset key repeats
  let s ← forLoop MAX_KEYBOARD_KEYS (fun i s => do
    let a ← writeAt s.CORE.Input.Keyboard.keyRepeatInFrame i 0
    pure { s with CORE.Input.Keyboard.keyRepeatInFrame := a }) s
  -- Reset mouse wheel
  let s := { s with CORE.Input.Mouse.currentWheelMove.x := toFloat 0 }
  let s := { s with CORE.Input.Mouse.currentWheelMove.y := toFloat 0 }
  -- Register previous mouse position
  let s :=
    if s.platform.cursorRelative then
      { s with CORE.Input.Mouse.currentPosition := ⟨toFloat 0, toFloat 0⟩ }
    else
      { s with CORE.Input.Mouse.previousPosition := s.CORE.Input.Mouse.currentPosition }
  -- Reset last gamepad button/axis registered state
  let s := { s with CORE.Input.Gamepad.lastButtonPressed := GAMEPAD_BUTTON_UNKNOWN }
  let s ← forLoop MAX_GAMEPADS (fun i s => do
    let a ← writeAt s.CORE.Input.Gamepad.axisCount i 0
    pure { s with CORE.Input.Gamepad.axisCount := a }) s
  -- Register previous touch states
  let s ← forLoop MAX_TOUCH_POINTS (fun i s => do
    let v ← readAt s.CORE.Input.Touch.currentTouchState i
    let a ← writeAt s.CORE.Input.Touch.previousTouchState i v
    pure { s with CORE.Input.Touch.previousTouchState := a }) s
  -- Register previous keys states
  let s ← forLoop MAX_KEYBOARD_KEYS (fun i s => do
    let v ← readAt s.CORE.Input.Keyboard.currentKeyState i
    let a ← writeAt s.CORE.Input.Keyboard.previousKeyState i v
    let s := { s with CORE.Input.Keyboard.previousKeyState := a }
    let r ← writeAt s.CORE.Input.Keyboard.keyRepeatInFrame i 0
    pure { s with CORE.Input.Keyboard.keyRepeatInFrame := r }) s
  -- Register previous mouse states
  forLoop MAX_MOUSE_BUTTONS (fun i s => do
    let v ← readAt s.CORE.Input.Mouse.currentButtonState i
    let a ← writeAt s.CORE.Input.Mouse.previousButtonState i v
    pure { s with CORE.Input.Mouse.previousButtonState := a }) s

/-- Lines 973-1062: the `switch` on one polled event. -/
def processEvent (s : State F) : SDL_Event → Except Fault (State F)
  | .quit => pure { s with CORE.Window.shouldClose := true }
  -- Window events are also polled: every inner case breaks
  | .window _ => pure s
  -- Keyboard events
  | .keyDown scancode => do
    let key := ConvertScancodeToKey scancode
    let s ←
      if key ≠ KEY_NULL then do
        let a ← writeAt s.CORE.Input.Keyboard.currentKeyState key 1
        pure { s with CORE.Input.Keyboard.currentKeyState := a }
      else pure s
    let held ← readAt s.CORE.Input.Keyboard.currentKeyState s.CORE.Input.Keyboard.exitKey
    if held ≠ 0 then pure { s with CORE.Window.shouldClose := true } else pure s
  | .keyUp scancode => do
    let key := ConvertScancodeToKey scancode
    if key ≠ KEY_NULL then do
      let a ← writeAt s.CORE.Input.Keyboard.currentKeyState key 0
      pure { s with CORE.Input.Keyboard.currentKeyState := a }
    else pure s
  -- Check mouse events
  | .mouseButtonDown button => do
    let a ← writeAt s.CORE.Input.Mouse.currentButtonState ((button : Int) - 1) 1
    pure { s with CORE.Input.Mouse.currentButtonState := a }
  | .mouseButtonUp button => do
    let a ← writeAt s.CORE.Input.Mouse.currentButtonState ((button : Int) - 1) 0
    pure { s with CORE.Input.Mouse.currentButtonState := a }
  | .mouseWheel x y =>
    let s := { s with CORE.Input.Mouse.currentWheelMove.x := toFloat x }
    pure { s with CORE.Input.Mouse.currentWheelMove.y := toFloat y }
  | .mouseMotion x y xrel yrel =>
    if s.platform.cursorRelative then
      let s := { s with CORE.Input.Mouse.currentPosition.x := toFloat xrel }
      let s := { s with CORE.Input.Mouse.currentPosition.y := toFloat yrel }
      pure { s with CORE.Input.Mouse.previousPosition := ⟨toFloat 0, toFloat 0⟩ }
    else
      let s := { s with CORE.Input.Mouse.currentPosition.x := toFloat x }
      pure { s with CORE.Input.Mouse.currentPosition.y := toFloat y }
  -- Check gamepad events: both axis branches are empty
  | .joyAxisMotion _ _ => pure s
  | .other _ => pure s

/-- Lines 970-1063: `while (SDL_PollEvent(&event) != 0)`, one iteration per
pending event, oldest first. -/
def eventLoop (s : State F) : List SDL_Event → Except Fault (State F)
  | [] => pure s
  | event :: pending => processEvent toFloat s event >>= fun s => eventLoop s pending

/-- `PollInputEvents`, run on the state `s` with the events `pending` in the
queue. -/
def PollInputEvents (s : State F) (pending : List SDL_Event) : Except Fault (State F) :=
  resetFrameState toFloat s >>= fun s => eventLoop toFloat s pending

end Poll

/-! ## Auxiliary definitions for the statements and proofs -/

/-- The array `a` after a fill loop has stored `v` at the indices below `k`. -/
def filledTo {n : Nat} (k : Nat) (v : Int) (a : CArray n) : CArray n :=
  fun j => if j.val < k then v else a j

/-- The array `dst` after a copy loop has stored `src[i]` at the indices `i`
below `k`. -/
def copiedTo {n : Nat} (k : Nat) (src dst : CArray n) : CArray n :=
  fun j => if j.val < k then src j else dst j

/-- The state `resetFrameState` returns, field by field. -/
def frameStart {F : Type} (toFloat : Int → F) (s : State F) : State F where
  CORE :=
    { Window := s.CORE.Window
      Input :=
        { Keyboard :=
            { exitKey := s.CORE.Input.Keyboard.exitKey
              currentKeyState := s.CORE.Input.Keyboard.currentKeyState
              previousKeyState := s.CORE.Input.Keyboard.currentKeyState
              keyRepeatInFrame := fun _ => 0
              keyPressedQueueCount := 0
              charPressedQueueCount := 0 }
          Mouse :=
            { currentPosition :=
                if s.platform.cursorRelative then ⟨toFloat 0, toFloat 0⟩
                else s.CORE.Input.Mouse.currentPosition
              previousPosition :=
                if s.platform.cursorRelative then s.CORE.Input.Mouse.previousPosition
                else s.CORE.Input.Mouse.currentPosition
              cursor := s.CORE.Input.Mouse.cursor
              cursorHidden := s.CORE.Input.Mouse.cursorHidden
              currentButtonState := s.CORE.Input.Mouse.currentButtonState
              previousButtonState := s.CORE.Input.Mouse.currentButtonState
              currentWheelMove := ⟨toFloat 0, toFloat 0⟩
              previousWheelMove := s.CORE.Input.Mouse.previousWheelMove }
          Gamepad :=
            { lastButtonPressed := GAMEPAD_BUTTON_UNKNOWN
              axisCount := fun _ => 0 }
          Touch :=
            { currentTouchState := s.CORE.Input.Touch.currentTouchState
              previousTouchState := s.CORE.Input.Touch.currentTouchState } } }
  platform := s.platform

/-- The element `a[i]` for an index inside the array (zero outside, where the
embedding never reads). -/
def elemAt {n : Nat} (a : CArray n) (i : Int) : Int :=
  if h : 0 ≤ i ∧ i < n then a ⟨i.toNat, by omega⟩ else 0

/-- The array `a` with `v` at index `i`. -/
def stored {n : Nat} (a : CArray n) (i : Int) (v : Int) : CArray n :=
  fun j => if (j.val : Int) = i then v else a j

/-- The effect of one event on the state when none of its array accesses is
out of bounds: the closed form of `processEvent`. -/
def applyEvent {F : Type} (toFloat : Int → F) (s : State F) : SDL_Event → State F
  | .quit => { s with CORE.Window.shouldClose := true }
  | .keyDown scancode =>
    let keys :=
      if ConvertScancodeToKey scancode ≠ KEY_NULL then
        stored s.CORE.Input.Keyboard.currentKeyState (ConvertScancodeToKey scancode) 1
      else s.CORE.Input.Keyboard.currentKeyState
    { s with
        CORE.Input.Keyboard.currentKeyState := keys
        CORE.Window.shouldClose :=
          if elemAt keys s.CORE.Input.Keyboard.exitKey ≠ 0 then true
          else s.CORE.Window.shouldClose }
  | .keyUp scancode =>
    { s with
        CORE.Input.Keyboard.currentKeyState :=
          if ConvertScancodeToKey scancode ≠ KEY_NULL then
            stored s.CORE.Input.Keyboard.currentKeyState (ConvertScancodeToKey scancode) 0
          else s.CORE.Input.Keyboard.currentKeyState }
  | .mouseButtonDown button =>
    { s with
        CORE.Input.Mouse.currentButtonState :=
          stored s.CORE.Input.Mouse.currentButtonState ((button : Int) - 1) 1 }
  | .mouseButtonUp button =>
    { s with
        CORE.Input.Mouse.currentButtonState :=
          stored s.CORE.Input.Mouse.currentButtonState ((button : Int) - 1) 0 }
  | .mouseWheel x y => { s with CORE.Input.Mouse.currentWheelMove := ⟨toFloat x, toFloat y⟩ }
  | .mouseMotion x y xrel yrel =>
    if s.platform.cursorRelative then
      { s with
          CORE.Input.Mouse.currentPosition := ⟨toFloat xrel, toFloat yrel⟩
          CORE.Input.Mouse.previousPosition := ⟨toFloat 0, toFloat 0⟩ }
    else { s with CORE.Input.Mouse.currentPosition := ⟨toFloat x, toFloat y⟩ }
  | .window _ => s
  | .joyAxisMotion _ _ => s
  | .other _ => s

/-- Whether every array access `processEvent` makes for the event is inside its
array, given the configured exit key: a key-down reads
`currentKeyState[exitKey]`, a mouse-button event writes
`currentButtonState[button - 1]`. -/
def eventInBounds (exitKey : Int) : SDL_Event → Bool
  | .keyDown _ => decide (0 ≤ exitKey ∧ exitKey < MAX_KEYBOARD_KEYS)
  | .mouseButtonDown button => decide (1 ≤ button ∧ button ≤ MAX_MOUSE_BUTTONS)
  | .mouseButtonUp button => decide (1 ≤ button ∧ button ≤ MAX_MOUSE_BUTTONS)
  | _ => true

/-- Every pending event indexes inside the arrays: exactly the polls that
perform no out-of-bounds access (`PollInputEvents_ok_iff`). -/
def InBounds (exitKey : Int) (pending : List SDL_Event) : Prop :=
  ∀ e ∈ pending, eventInBounds exitKey e = true

instance (exitKey : Int) (pending : List SDL_Event) : Decidable (InBounds exitKey pending) :=
  inferInstanceAs (Decidable (∀ e ∈ pending, eventInBounds exitKey e = true))

/-- The level a key event gives key `k`: 1 for a key-down whose scancode
resolves to `k`, 0 for such a key-up; nothing for any other event. -/
def keyEventLevel (k : Int) : SDL_Event → Option Int
  | .keyDown scancode => if ConvertScancodeToKey scancode = k then some 1 else none
  | .keyUp scancode => if ConvertScancodeToKey scancode = k then some 0 else none
  | _ => none

/-- The level given by the last key event of the sequence whose scancode
resolves to `k`. -/
def lastKeyLevel (k : Int) (pending : List SDL_Event) : Option Int :=
  pending.reverse.findSome? (keyEventLevel k)

/-- The delta of a mouse-wheel event. -/
def wheelDelta : SDL_Event → Option (Int × Int)
  | .mouseWheel x y => some (x, y)
  | _ => none

/-- The delta of the last mouse-wheel event of the sequence. -/
def lastWheelDelta (pending : List SDL_Event) : Option (Int × Int) :=
  pending.reverse.findSome? wheelDelta

/-- The fields no `case` of the event `switch` assigns. -/
def outsideEvents {F : Type} (s : State F) :=
  (s.CORE.Input.Keyboard.exitKey, s.CORE.Input.Keyboard.previousKeyState,
   s.CORE.Input.Keyboard.keyRepeatInFrame, s.CORE.Input.Keyboard.keyPressedQueueCount,
   s.CORE.Input.Keyboard.charPressedQueueCount, s.CORE.Input.Mouse.cursor,
   s.CORE.Input.Mouse.cursorHidden, s.CORE.Input.Mouse.previousButtonState,
   s.CORE.Input.Mouse.previousWheelMove, s.CORE.Input.Gamepad, s.CORE.Input.Touch,
   s.CORE.Window.flags, s.CORE.Window.ready, s.platform)

/-- A concrete state over integer-valued coordinates: nothing pressed, the
exit key `KEY_ESCAPE`, the cursor in absolute mode at (10, 20). -/
def idleState : State Int where
  CORE :=
    { Window := { flags := 0, ready := true, shouldClose := false }
      Input :=
        { Keyboard :=
            { exitKey := KEY_ESCAPE
              currentKeyState := fun _ => 0
              previousKeyState := fun _ => 0
              keyRepeatInFrame := fun _ => 0
              keyPressedQueueCount := 0
              charPressedQueueCount := 0 }
          Mouse :=
            { currentPosition := ⟨10, 20⟩
              previousPosition := ⟨0, 0⟩
              cursor := 0
              cursorHidden := false
              currentButtonState := fun _ => 0
              previousButtonState := fun _ => 0
              currentWheelMove := ⟨0, 0⟩
              previousWheelMove := ⟨0, 0⟩ }
          Gamepad := { lastButtonPressed := GAMEPAD_BUTTON_UNKNOWN, axisCount := fun _ => 0 }
          Touch := { currentTouchState := fun _ => 0, previousTouchState := fun _ => 0 } } }
  platform := { cursorRelative := false }

/-- The idle state with the exit key `KEY_ESCAPE` held since an earlier frame
and the window not yet asked to close. -/
def heldExitState : State Int :=
  { idleState with
      CORE.Input.Keyboard.currentKeyState := fun i => if i.val = 256 then 1 else 0 }

/-- The idle state in relative cursor mode, with a gamepad button registered. -/
def relativeState : State Int :=
  { idleState with
      CORE.Input.Gamepad.lastButtonPressed := 3
      platform.cursorRelative := true }

/-! ## Window state flags (lines 223-465) -/

/-- Modelled from the spec: the `ConfigFlags` enumeration of `raylib.h` is not
under `src/`; the spec describes it as an enum-flag bitmask, and the flags
carry the single-bit values of the upstream header. -/
def FLAG_VSYNC_HINT : Nat := 0x00000040
def FLAG_FULLSCREEN_MODE : Nat := 0x00000002
def FLAG_WINDOW_RESIZABLE : Nat := 0x00000004
def FLAG_WINDOW_UNDECORATED : Nat := 0x00000008
def FLAG_WINDOW_HIDDEN : Nat := 0x00000080
def FLAG_WINDOW_MINIMIZED : Nat := 0x00000200
def FLAG_WINDOW_MAXIMIZED : Nat := 0x00000400
def FLAG_WINDOW_UNFOCUSED : Nat := 0x00000800
def FLAG_WINDOW_TOPMOST : Nat := 0x00001000
def FLAG_WINDOW_ALWAYS_RUN : Nat := 0x00000100
def FLAG_WINDOW_TRANSPARENT : Nat := 0x00000010
def FLAG_WINDOW_HIGHDPI : Nat := 0x00002000
def FLAG_WINDOW_MOUSE_PASSTHROUGH : Nat := 0x00004000
def FLAG_BORDERLESS_WINDOWED_MODE : Nat := 0x00008000
def FLAG_MSAA_4X_HINT : Nat := 0x00000020
def FLAG_INTERLACED_HINT : Nat := 0x00010000

/-- The value of `SDL_WINDOW_FULLSCREEN` in the SDL headers. -/
def SDL_WINDOW_FULLSCREEN : Nat := 0x00000001

/-- The C complement `~x` of an `unsigned int` (32 bits). -/
def uintNot (x : Nat) : Nat := 4294967295 ^^^ (x % 4294967296)

/-- The two `SDL_GLattr` attributes the file sets. -/
inductive SDL_GLattr where
  | SDL_GL_MULTISAMPLEBUFFERS
  | SDL_GL_MULTISAMPLESAMPLES
  deriving DecidableEq, Repr

/-- A call the window functions make on the window `platform.window` (the
window argument is left out), or a `TRACELOG` warning; `SDL_TRUE` and
`SDL_FALSE` are `true` and `false`. -/
inductive Call where
  | SDL_GL_SetSwapInterval (interval : Int)
  | SDL_SetWindowFullscreen (flags : Nat)
  | SDL_SetWindowResizable (resizable : Bool)
  | SDL_SetWindowBordered (bordered : Bool)
  | SDL_HideWindow
  | SDL_ShowWindow
  | SDL_MinimizeWindow
  | SDL_MaximizeWindow
  | SDL_RestoreWindow
  | SDL_SetWindowAlwaysOnTop (on_top : Bool)
  | SDL_GL_SetAttribute (attr : SDL_GLattr) (value : Int)
  | SDL_SetWindowPosition (x y : Int)
  | SDL_SetWindowSize (w h : Int)
  | TRACELOG (text : String)
  deriving DecidableEq, Repr

structure Point where
  x : Int
  y : Int

structure Size where
  width : Int
  height : Int

structure SDL_Rect where
  x : Int
  y : Int
  w : Int
  h : Int

/-- Modelled from the spec: further fields of `CORE.Window` (`rcore.h`, not
under `src/`) that the window toggles read and write, kept beside the fields of
`WindowData`. -/
structure WindowPlacement where
  fullscreen : Bool
  position : Point
  previousPosition : Point
  screen : Size
  previousScreen : Size

/-- The globals together with the calls issued so far, oldest first. -/
structure Desktop (F : Type) where
  globals : State F
  window : WindowPlacement
  calls : List Call

/-- Issue one call. -/
def Desktop.issue {F : Type} (d : Desktop F) (c : Call) : Desktop F :=
  { d with calls := d.calls ++ [c] }

/-- What the SDL queries of `ToggleBorderlessWindowed` answer:
`SDL_GetWindowPosition`, `SDL_GetWindowDisplayIndex` (behind
`GetCurrentMonitor`, lines 657-660) and `SDL_GetDisplayBounds`, which gives no
rectangle when it returns non-zero. -/
structure SDLQueries where
  SDL_GetWindowPosition : Point
  SDL_GetWindowDisplayIndex : Int
  SDL_GetDisplayBounds : Int → Option SDL_Rect

section WindowState

variable {F : Type}

/-- `SetWindowState` (lines 314-389). -/
def SetWindowState (flags : Nat) (d : Desktop F) : Desktop F :=
  let d := { d with globals.CORE.Window.flags := d.globals.CORE.Window.flags ||| flags }
  let d := if flags &&& FLAG_VSYNC_HINT ≠ 0 then d.issue (.SDL_GL_SetSwapInterval 1) else d
  let d :=
    if flags &&& FLAG_FULLSCREEN_MODE ≠ 0 then
      d.issue (.SDL_SetWindowFullscreen SDL_WINDOW_FULLSCREEN)
    else d
  let d :=
    if flags &&& FLAG_WINDOW_RESIZABLE ≠ 0 then d.issue (.SDL_SetWindowResizable true) else d
  let d :=
    if flags &&& FLAG_WINDOW_UNDECORATED ≠ 0 then d.issue (.SDL_SetWindowBordered false) else d
  let d := if flags &&& FLAG_WINDOW_HIDDEN ≠ 0 then d.issue .SDL_HideWindow else d
  let d := if flags &&& FLAG_WINDOW_MINIMIZED ≠ 0 then d.issue .SDL_MinimizeWindow else d
  let d := if flags &&& FLAG_WINDOW_MAXIMIZED ≠ 0 then d.issue .SDL_MaximizeWindow else d
  let d :=
    if flags &&& FLAG_WINDOW_UNFOCUSED ≠ 0 then
      d.issue (.TRACELOG
        "SetWindowState() - FLAG_WINDOW_UNFOCUSED is not supported on PLATFORM_DESKTOP_SDL")
    else d
  let d :=
    if flags &&& FLAG_WINDOW_TOPMOST ≠ 0 then d.issue (.SDL_SetWindowAlwaysOnTop false) else d
  let d :=
    if flags &&& FLAG_WINDOW_ALWAYS_RUN ≠ 0 then
      d.issue (.TRACELOG
        "SetWindowState() - FLAG_WINDOW_ALWAYS_RUN is not supported on PLATFORM_DESKTOP_SDL")
    else d
  let d :=
    if flags &&& FLAG_WINDOW_TRANSPARENT ≠ 0 then
      d.issue (.TRACELOG
        "SetWindowState() - FLAG_WINDOW_TRANSPARENT is not supported on PLATFORM_DESKTOP_SDL")
    else d
  let d :=
    if flags &&& FLAG_WINDOW_HIGHDPI ≠ 0 then
      d.issue (.TRACELOG
        "SetWindowState() - FLAG_WINDOW_HIGHDPI is not supported on PLATFORM_DESKTOP_SDL")
    else d
  let d :=
    if flags &&& FLAG_WINDOW_MOUSE_PASSTHROUGH ≠ 0 then
      d.issue (.TRACELOG
        "SetWindowState() - FLAG_WINDOW_MOUSE_PASSTHROUGH is not supported on PLATFORM_DESKTOP_SDL")
    else d
  let d :=
    if flags &&& FLAG_BORDERLESS_WINDOWED_MODE ≠ 0 then
      d.issue (.SDL_SetWindowBordered false)
    else d
  let d :=
    if flags &&& FLAG_MSAA_4X_HINT ≠ 0 then
      (d.issue (.SDL_GL_SetAttribute .SDL_GL_MULTISAMPLEBUFFERS 1)).issue
        (.SDL_GL_SetAttribute .SDL_GL_MULTISAMPLESAMPLES 4)
    else d
  if flags &&& FLAG_INTERLACED_HINT ≠ 0 then
    d.issue (.TRACELOG
      "SetWindowState() - FLAG_INTERLACED_HINT is not supported on PLATFORM_DESKTOP_SDL")
  else d

/-- `ClearWindowState` (lines 391-465). -/
def ClearWindowState (flags : Nat) (d : Desktop F) : Desktop F :=
  let d :=
    { d with globals.CORE.Window.flags := d.globals.CORE.Window.flags &&& uintNot flags }
  let d := if flags &&& FLAG_VSYNC_HINT ≠ 0 then d.issue (.SDL_GL_SetSwapInterval 0) else d
  let d :=
    if flags &&& FLAG_FULLSCREEN_MODE ≠ 0 then d.issue (.SDL_SetWindowFullscreen 0) else d
  let d :=
    if flags &&& FLAG_WINDOW_RESIZABLE ≠ 0 then d.issue (.SDL_SetWindowResizable false) else d
  let d :=
    if flags &&& FLAG_WINDOW_UNDECORATED ≠ 0 then d.issue (.SDL_SetWindowBordered true) else d
  let d := if flags &&& FLAG_WINDOW_HIDDEN ≠ 0 then d.issue .SDL_ShowWindow else d
  let d := if flags &&& FLAG_WINDOW_MINIMIZED ≠ 0 then d.issue .SDL_RestoreWindow else d
  let d := if flags &&& FLAG_WINDOW_MAXIMIZED ≠ 0 then d.issue .SDL_RestoreWindow else d
  let d :=
    if flags &&& FLAG_WINDOW_UNFOCUSED ≠ 0 then
      d.issue (.TRACELOG
        "ClearWindowState() - FLAG_WINDOW_UNFOCUSED is not supported on PLATFORM_DESKTOP_SDL")
    else d
  let d :=
    if flags &&& FLAG_WINDOW_TOPMOST ≠ 0 then d.issue (.SDL_SetWindowAlwaysOnTop false) else d
  let d :=
    if flags &&& FLAG_WINDOW_ALWAYS_RUN ≠ 0 then
      d.issue (.TRACELOG
        "ClearWindowState() - FLAG_WINDOW_ALWAYS_RUN is not supported on PLATFORM_DESKTOP_SDL")
    else d
  let d :=
    if flags &&& FLAG_WINDOW_TRANSPARENT ≠ 0 then
      d.issue (.TRACELOG
        "ClearWindowState() - FLAG_WINDOW_TRANSPARENT is not supported on PLATFORM_DESKTOP_SDL")
    else d
  let d :=
    if flags &&& FLAG_WINDOW_HIGHDPI ≠ 0 then
      d.issue (.TRACELOG
        "ClearWindowState() - FLAG_WINDOW_HIGHDPI is not supported on PLATFORM_DESKTOP_SDL")
    else d
  let d :=
    if flags &&& FLAG_WINDOW_MOUSE_PASSTHROUGH ≠ 0 then
      d.issue (.TRACELOG
        "ClearWindowState() - FLAG_WINDOW_MOUSE_PASSTHROUGH is not supported on PLATFORM_DESKTOP_SDL")
    else d
  let d :=
    if flags &&& FLAG_BORDERLESS_WINDOWED_MODE ≠ 0 then
      d.issue (.SDL_SetWindowBordered true)
    else d
  let d :=
    if flags &&& FLAG_MSAA_4X_HINT ≠ 0 then
      (d.issue (.SDL_GL_SetAttribute .SDL_GL_MULTISAMPLEBUFFERS 0)).issue
        (.SDL_GL_SetAttribute .SDL_GL_MULTISAMPLESAMPLES 0)
    else d
  if flags &&& FLAG_INTERLACED_HINT ≠ 0 then
    d.issue (.TRACELOG
      "ClearWindowState() - FLAG_INTERLACED_HINT is not supported on PLATFORM_DESKTOP_SDL")
  else d

/-- `ToggleFullscreen` (lines 223-236).  `IsWindowState` is a function of
`rcore.c`, which is not under `src/`: it is the parameter of the same name,
applied to the globals it reads. -/
def ToggleFullscreen (IsWindowState : State F → Nat → Bool) (d : Desktop F) : Desktop F :=
  if !IsWindowState d.globals FLAG_FULLSCREEN_MODE then
    let d := d.issue (.SDL_SetWindowFullscreen SDL_WINDOW_FULLSCREEN)
    { d with globals.CORE.Window.flags := d.globals.CORE.Window.flags ||| FLAG_FULLSCREEN_MODE }
  else
    let d := d.issue (.SDL_SetWindowFullscreen 0)
    { d with
        globals.CORE.Window.flags :=
          d.globals.CORE.Window.flags &&& uintNot FLAG_FULLSCREEN_MODE }

/-- `ToggleBorderlessWindowed` (lines 238-292). -/
def ToggleBorderlessWindowed (IsWindowState : State F → Nat → Bool) (sdl : SDLQueries)
    (d : Desktop F) : Desktop F :=
  -- Leave fullscreen before attempting to set borderless windowed mode
  let d :=
    if d.window.fullscreen then
      let d := { d with window.previousPosition := d.window.position }
      ToggleFullscreen IsWindowState d
    else d
  if !IsWindowState d.globals FLAG_BORDERLESS_WINDOWED_MODE then
    -- Store the window's current position and size
    let d := { d with window.previousPosition := sdl.SDL_GetWindowPosition }
    let d := { d with window.previousScreen := d.window.screen }
    -- Set screen position and size inside valid bounds
    let d :=
      match sdl.SDL_GetDisplayBounds sdl.SDL_GetWindowDisplayIndex with
      | some displayBounds =>
        (d.issue (.SDL_SetWindowPosition displayBounds.x displayBounds.y)).issue
          (.SDL_SetWindowSize displayBounds.w displayBounds.h)
      | none => d
    -- Set borderless mode and flag
    let d := d.issue (.SDL_SetWindowBordered false)
    let d :=
      { d with
          globals.CORE.Window.flags :=
            d.globals.CORE.Window.flags ||| FLAG_WINDOW_UNDECORATED }
    -- Set topmost modes and flag
    let d := d.issue (.SDL_SetWindowAlwaysOnTop true)
    let d :=
      { d with globals.CORE.Window.flags := d.globals.CORE.Window.flags ||| FLAG_WINDOW_TOPMOST }
    -- Set borderless windowed flag
    { d with
        globals.CORE.Window.flags :=
          d.globals.CORE.Window.flags ||| FLAG_BORDERLESS_WINDOWED_MODE }
  else
    -- Remove borderless mode and flag
    let d := d.issue (.SDL_SetWindowBordered true)
    let d :=
      { d with
          globals.CORE.Window.flags :=
            d.globals.CORE.Window.flags &&& uintNot FLAG_WINDOW_UNDECORATED }
    -- Remove topmost modes and flag
    let d := d.issue (.SDL_SetWindowAlwaysOnTop false)
    let d :=
      { d with
          globals.CORE.Window.flags :=
            d.globals.CORE.Window.flags &&& uintNot FLAG_WINDOW_TOPMOST }
    -- Restore the window's previous size and position
    let d :=
      d.issue (.SDL_SetWindowSize d.window.previousScreen.width d.window.previousScreen.height)
    let d :=
      d.issue (.SDL_SetWindowPosition d.window.previousPosition.x d.window.previousPosition.y)
    -- Remove borderless windowed flag
    { d with
        globals.CORE.Window.flags :=
          d.globals.CORE.Window.flags &&& uintNot FLAG_BORDERLESS_WINDOWED_MODE }

end WindowState

/-- The desktop around the idle state: a 800 x 450 window at (100, 100), no
call issued yet. -/
def idleDesktop : Desktop Int where
  globals := idleState
  window :=
    { fullscreen := false
      position := ⟨100, 100⟩
      previousPosition := ⟨0, 0⟩
      screen := ⟨800, 450⟩
      previousScreen := ⟨0, 0⟩ }
  calls := []

/-- Whether the event is a key-down or key-up whose scancode does not resolve
to a key. -/
def unresolvedKeyEvent : SDL_Event → Bool
  | .keyDown scancode => decide (ConvertScancodeToKey scancode = KEY_NULL)
  | .keyUp scancode => decide (ConvertScancodeToKey scancode = KEY_NULL)
  | _ => false

/-- The array `currentKeyState` after one event, as a function of the array
before it. -/
def keysAfter (keys : CArray MAX_KEYBOARD_KEYS) : SDL_Event → CArray MAX_KEYBOARD_KEYS
  | .keyDown scancode =>
    if ConvertScancodeToKey scancode ≠ KEY_NULL then
      stored keys (ConvertScancodeToKey scancode) 1
    else keys
  | .keyUp scancode =>
    if ConvertScancodeToKey scancode ≠ KEY_NULL then
      stored keys (ConvertScancodeToKey scancode) 0
    else keys
  | _ => keys

/-- The level a mouse-button event gives the tracked button `i`: 1 for a
button-down whose raw id is `i + 1`, 0 for such a button-up; nothing for any
other event. -/
def buttonEventLevel (i : Fin MAX_MOUSE_BUTTONS) : SDL_Event → Option Int
  | .mouseButtonDown button => if (button : Int) - 1 = i.val then some 1 else none
  | .mouseButtonUp button => if (button : Int) - 1 = i.val then some 0 else none
  | _ => none

/-- The level given by the last button event of the sequence for the tracked
button `i`. -/
def lastButtonLevel (i : Fin MAX_MOUSE_BUTTONS) (pending : List SDL_Event) : Option Int :=
  pending.reverse.findSome? (buttonEventLevel i)

/-- Whether the event is a window event, a gamepad-axis-motion event or an event
of a kind the `switch` has no `case` for. -/
def inertEvent : SDL_Event → Bool
  | .window _ => true
  | .joyAxisMotion _ _ => true
  | .other _ => true
  | _ => false

/-- Whether the event is a mouse-motion event. -/
def isMouseMotion : SDL_Event → Bool
  | .mouseMotion _ _ _ _ => true
  | _ => false

/-! ## Window icon (lines 467-558) -/

/-- Modelled from the spec: the `PixelFormat` enumeration of `raylib.h` is not
under `src/`; the uncompressed formats carry the values of the upstream header,
where they are the enumerators 1 to 13 and the compressed formats follow. -/
def PIXELFORMAT_UNCOMPRESSED_GRAYSCALE : Int := 1
def PIXELFORMAT_UNCOMPRESSED_GRAY_ALPHA : Int := 2
def PIXELFORMAT_UNCOMPRESSED_R5G6B5 : Int := 3
def PIXELFORMAT_UNCOMPRESSED_R8G8B8 : Int := 4
def PIXELFORMAT_UNCOMPRESSED_R5G5B5A1 : Int := 5
def PIXELFORMAT_UNCOMPRESSED_R4G4B4A4 : Int := 6
def PIXELFORMAT_UNCOMPRESSED_R8G8B8A8 : Int := 7
def PIXELFORMAT_UNCOMPRESSED_R32 : Int := 8
def PIXELFORMAT_UNCOMPRESSED_R32G32B32 : Int := 9
def PIXELFORMAT_UNCOMPRESSED_R32G32B32A32 : Int := 10
def PIXELFORMAT_UNCOMPRESSED_R16 : Int := 11
def PIXELFORMAT_UNCOMPRESSED_R16G16B16 : Int := 12
def PIXELFORMAT_UNCOMPRESSED_R16G16B16A16 : Int := 13

/-- Modelled from the spec: the `Image` type of `raylib.h` is not under `src/`;
these are its `int` fields (the pixel buffer `data` is left out, it is only
handed on to SDL). -/
structure Image where
  width : Int
  height : Int
  mipmaps : Int
  format : Int

/-- The value a C `int` (32 bits, two's complement) holds after an arithmetic
result `x`: `x` itself when it fits, wrapped around otherwise. -/
def wrapInt (x : Int) : Int := (x + 2147483648) % 4294967296 - 2147483648

/-- The calls `SetWindowIcon` makes (the pixel buffer, the window and the
surface arguments are left out). -/
inductive IconCall where
  | SDL_CreateRGBSurfaceFrom (width height depth pitch : Int) (rmask gmask bmask amask : Nat)
  | SDL_SetWindowIcon
  | SDL_FreeSurface
  deriving DecidableEq, Repr

/-- The locals `rmask, gmask, bmask, amask, depth, pitch` of `SetWindowIcon`
after its `switch`. -/
structure IconSurface where
  rmask : Nat
  gmask : Nat
  bmask : Nat
  amask : Nat
  depth : Int
  pitch : Int

/-- The `switch (image.format)` of `SetWindowIcon` (lines 476-546): the locals
it sets, or nothing on the `default` path, which returns.  Each `pitch` is the
`int` product of the source. -/
def iconSurfaceOf (image : Image) : Option IconSurface :=
  if image.format = PIXELFORMAT_UNCOMPRESSED_GRAYSCALE then
    some { rmask := 0xFF, gmask := 0, bmask := 0, amask := 0,
           depth := 8, pitch := image.width }
  else if image.format = PIXELFORMAT_UNCOMPRESSED_GRAY_ALPHA then
    some { rmask := 0xFF, gmask := 0xFF00, bmask := 0, amask := 0,
           depth := 16, pitch := wrapInt (image.width * 2) }
  else if image.format = PIXELFORMAT_UNCOMPRESSED_R5G6B5 then
    some { rmask := 0xF800, gmask := 0x07E0, bmask := 0x001F, amask := 0,
           depth := 16, pitch := wrapInt (image.width * 2) }
  else if image.format = PIXELFORMAT_UNCOMPRESSED_R8G8B8 then
    some { rmask := 0xFF0000, gmask := 0x00FF00, bmask := 0x0000FF, amask := 0,
           depth := 24, pitch := wrapInt (image.width * 3) }
  else if image.format = PIXELFORMAT_UNCOMPRESSED_R5G5B5A1 then
    some { rmask := 0xF800, gmask := 0x07C0, bmask := 0x003E, amask := 0x0001,
           depth := 16, pitch := wrapInt (image.width * 2) }
  else if image.format = PIXELFORMAT_UNCOMPRESSED_R4G4B4A4 then
    some { rmask := 0xF000, gmask := 0x0F00, bmask := 0x00F0, amask := 0x000F,
           depth := 16, pitch := wrapInt (image.width * 2) }
  else if image.format = PIXELFORMAT_UNCOMPRESSED_R8G8B8A8 then
    some { rmask := 0xFF000000, gmask := 0x00FF0000, bmask := 0x0000FF00, amask := 0x000000FF,
           depth := 32, pitch := wrapInt (image.width * 4) }
  else if image.format = PIXELFORMAT_UNCOMPRESSED_R32 then
    some { rmask := 0xFFFFFFFF, gmask := 0, bmask := 0, amask := 0,
           depth := 32, pitch := wrapInt (image.width * 4) }
  else if image.format = PIXELFORMAT_UNCOMPRESSED_R32G32B32 then
    some { rmask := 0xFFFFFFFF, gmask := 0xFFFFFFFF, bmask := 0xFFFFFFFF, amask := 0,
           depth := 96, pitch := wrapInt (image.width * 12) }
  else if image.format = PIXELFORMAT_UNCOMPRESSED_R32G32B32A32 then
    some { rmask := 0xFFFFFFFF, gmask := 0xFFFFFFFF, bmask := 0xFFFFFFFF, amask := 0xFFFFFFFF,
           depth := 128, pitch := wrapInt (image.width * 16) }
  else if image.format = PIXELFORMAT_UNCOMPRESSED_R16 then
    some { rmask := 0xFFFF, gmask := 0, bmask := 0, amask := 0,
           depth := 16, pitch := wrapInt (image.width * 2) }
  else if image.format = PIXELFORMAT_UNCOMPRESSED_R16G16B16 then
    some { rmask := 0xFFFF, gmask := 0xFFFF, bmask := 0xFFFF, amask := 0,
           depth := 48, pitch := wrapInt (image.width * 6) }
  else if image.format = PIXELFORMAT_UNCOMPRESSED_R16G16B16A16 then
    some { rmask := 0xFFFF, gmask := 0xFFFF, bmask := 0xFFFF, amask := 0xFFFF,
           depth := 64, pitch := wrapInt (image.width * 8) }
  else
    -- Compressed formats are not supported
    none

/-- `SetWindowIcon`: the calls it makes, in order.  `surfaceCreated` tells
whether `SDL_CreateRGBSurfaceFrom` returns a surface (non-`NULL`). -/
def SetWindowIcon (surfaceCreated : Bool) (image : Image) : List IconCall :=
  match iconSurfaceOf image with
  | none => []
  | some f =>
    let calls : List IconCall :=
      [.SDL_CreateRGBSurfaceFrom image.width image.height f.depth f.pitch
        f.rmask f.gmask f.bmask f.amask]
    if surfaceCreated then calls ++ [.SDL_SetWindowIcon, .SDL_FreeSurface] else calls

/-- The pixel formats `SetWindowIcon` has a `case` for. -/
def iconFormats : List Int :=
  [PIXELFORMAT_UNCOMPRESSED_GRAYSCALE, PIXELFORMAT_UNCOMPRESSED_GRAY_ALPHA,
   PIXELFORMAT_UNCOMPRESSED_R5G6B5, PIXELFORMAT_UNCOMPRESSED_R8G8B8,
   PIXELFORMAT_UNCOMPRESSED_R5G5B5A1, PIXELFORMAT_UNCOMPRESSED_R4G4B4A4,
   PIXELFORMAT_UNCOMPRESSED_R8G8B8A8, PIXELFORMAT_UNCOMPRESSED_R32,
   PIXELFORMAT_UNCOMPRESSED_R32G32B32, PIXELFORMAT_UNCOMPRESSED_R32G32B32A32,
   PIXELFORMAT_UNCOMPRESSED_R16, PIXELFORMAT_UNCOMPRESSED_R16G16B16,
   PIXELFORMAT_UNCOMPRESSED_R16G16B16A16]

/-- A 256 x 256 RGBA icon. -/
def squareIcon : Image :=
  { width := 256, height := 256, mipmaps := 1, format := PIXELFORMAT_UNCOMPRESSED_R8G8B8A8 }

/-- A one-row image of 134217728 pixels of four 32-bit floats each. -/
def wideImage : Image :=
  { width := 134217728, height := 1, mipmaps := 1,
    format := PIXELFORMAT_UNCOMPRESSED_R32G32B32A32 }

/-- Whether the raw button id of a mouse-button event is one of the tracked
buttons, `1 <= button <= MAX_MOUSE_BUTTONS`; true of every other event. -/
def buttonIdTracked : SDL_Event → Bool
  | .mouseButtonDown button => decide (1 ≤ button ∧ button ≤ MAX_MOUSE_BUTTONS)
  | .mouseButtonUp button => decide (1 ≤ button ∧ button ≤ MAX_MOUSE_BUTTONS)
  | _ => true

/-- Every mouse-button event of the sequence has a tracked button id. -/
def ButtonIdsTracked (pending : List SDL_Event) : Prop :=
  ∀ e ∈ pending, buttonIdTracked e = true

instance (pending : List SDL_Event) : Decidable (ButtonIdsTracked pending) :=
  inferInstanceAs (Decidable (∀ e ∈ pending, buttonIdTracked e = true))

/-- A state in the middle of a session: the key `KEY_A`, the left mouse button
and the first touch point are down in the "current" arrays and up in the
"previous" ones. -/
def pressedState : State Int :=
  { idleState with
      CORE.Input.Keyboard.currentKeyState := fun i => if i.val = 65 then 1 else 0
      CORE.Input.Mouse.currentButtonState := fun i => if i.val = 0 then 1 else 0
      CORE.Input.Touch.currentTouchState := fun i => if i.val = 0 then 1 else 0 }

/-- The relative-mode state after `SetExitKey(1000)`: the exit key is no index
of the per-key arrays. -/
def wildExitState : State Int :=
  { relativeState with CORE.Input.Keyboard.exitKey := 1000 }

/-- The values of the `SDL_Scancode` enumerators (SDL's `SDL_scancode.h`, the
USB keyboard usage ids) that the comments of the `ScancodeToKey` table name
next to the entries outside the letter, digit, function-key and keypad-digit
runs. -/
def SDL_SCANCODE_RETURN : Int := 40
def SDL_SCANCODE_ESCAPE : Int := 41
def SDL_SCANCODE_BACKSPACE : Int := 42
def SDL_SCANCODE_TAB : Int := 43
def SDL_SCANCODE_SPACE : Int := 44
def SDL_SCANCODE_MINUS : Int := 45
def SDL_SCANCODE_EQUALS : Int := 46
def SDL_SCANCODE_LEFTBRACKET : Int := 47
def SDL_SCANCODE_RIGHTBRACKET : Int := 48
def SDL_SCANCODE_BACKSLASH : Int := 49
def SDL_SCANCODE_SEMICOLON : Int := 51
def SDL_SCANCODE_APOSTROPHE : Int := 52
def SDL_SCANCODE_GRAVE : Int := 53
def SDL_SCANCODE_COMMA : Int := 54
def SDL_SCANCODE_PERIOD : Int := 55
def SDL_SCANCODE_SLASH : Int := 56
def SDL_SCANCODE_CAPSLOCK : Int := 57
def SDL_SCANCODE_PRINTSCREEN : Int := 70
def SDL_SCANCODE_SCROLLLOCK : Int := 71
def SDL_SCANCODE_PAUSE : Int := 72
def SDL_SCANCODE_INSERT : Int := 73
def SDL_SCANCODE_HOME : Int := 74
def SDL_SCANCODE_PAGEUP : Int := 75
def SDL_SCANCODE_DELETE : Int := 76
def SDL_SCANCODE_END : Int := 77
def SDL_SCANCODE_PAGEDOWN : Int := 78
def SDL_SCANCODE_RIGHT : Int := 79
def SDL_SCANCODE_LEFT : Int := 80
def SDL_SCANCODE_DOWN : Int := 81
def SDL_SCANCODE_UP : Int := 82
def SDL_SCANCODE_NUMLOCKCLEAR : Int := 83
def SDL_SCANCODE_KP_DIVIDE : Int := 84
def SDL_SCANCODE_KP_MULTIPLY : Int := 85
def SDL_SCANCODE_KP_MINUS : Int := 86
def SDL_SCANCODE_KP_PLUS : Int := 87
def SDL_SCANCODE_KP_ENTER : Int := 88

/-! ## Array and loop lemmas -/

theorem readAt_nat {n : Nat} (a : CArray n) (k : Nat) (hk : k < n) :
    readAt a (k : Int) = .ok (a ⟨k, hk⟩) := by
  have h : 0 ≤ (k : Int) ∧ (k : Int) < n := ⟨by omega, by omega⟩
  simp [readAt, h]

theorem writeAt_nat {n : Nat} (a : CArray n) (k : Nat) (hk : k < n) (v : Int) :
    writeAt a (k : Int) v = .ok (Function.update a ⟨k, hk⟩ v) := by
  have h : 0 ≤ (k : Int) ∧ (k : Int) < n := ⟨by omega, by omega⟩
  simp [writeAt, h]

theorem filledTo_zero {n : Nat} (v : Int) (a : CArray n) : filledTo 0 v a = a := by
  funext j; simp [filledTo]

theorem filledTo_full {n : Nat} (v : Int) (a : CArray n) : filledTo n v a = fun _ => v := by
  funext j; simp [filledTo]

theorem filledTo_succ {n : Nat} (k : Nat) (hk : k < n) (v : Int) (a : CArray n) :
    Function.update (filledTo k v a) ⟨k, hk⟩ v = filledTo (k + 1) v a := by
  funext j
  by_cases hj : j = ⟨k, hk⟩
  · subst hj; simp [filledTo]
  · have : j.val ≠ k := fun h => hj (Fin.ext h)
    simp only [Function.update_noteq hj, filledTo]
    by_cases hlt : j.val < k
    · simp [hlt, Nat.lt_succ_of_lt hlt]
    · have : ¬ j.val < k + 1 := by omega
      simp [hlt, this]

theorem copiedTo_zero {n : Nat} (src dst : CArray n) : copiedTo 0 src dst = dst := by
  funext j; simp [copiedTo]

theorem copiedTo_full {n : Nat} (src dst : CArray n) : copiedTo n src dst = src := by
  funext j; simp [copiedTo]

theorem copiedTo_succ {n : Nat} (k : Nat) (hk : k < n) (src dst : CArray n) :
    Function.update (copiedTo k src dst) ⟨k, hk⟩ (src ⟨k, hk⟩) =
      copiedTo (k + 1) src dst := by
  funext j
  by_cases hj : j = ⟨k, hk⟩
  · subst hj; simp [copiedTo]
  · have : j.val ≠ k := fun h => hj (Fin.ext h)
    simp only [Function.update_noteq hj, copiedTo]
    by_cases hlt : j.val < k
    · simp [hlt, Nat.lt_succ_of_lt hlt]
    · have : ¬ j.val < k + 1 := by omega
      simp [hlt, this]

/-- A loop whose every iteration succeeds and moves an invariant family one
step forward ends in the last member of the family. -/
theorem forLoop_ok {σ : Type} (n : Nat) (body : Nat → σ → Except Fault σ) (s : σ)
    (inv : Nat → σ) (h0 : inv 0 = s)
    (hstep : ∀ k, k < n → body k (inv k) = .ok (inv (k + 1))) :
    forLoop n body s = .ok (inv n) := by
  induction n with
  | zero => simp [forLoop, h0]
  | succ m ih =>
    have hm := ih (fun k hk => hstep k (Nat.lt_succ_of_lt hk))
    simp only [forLoop, hm]
    exact hstep m (Nat.lt_succ_self m)

theorem ok_bind {α β : Type} (x : α) (f : α → Except Fault β) :
    (Except.ok x >>= f) = f x := rfl

section PollLemmas

variable {F : Type} (toFloat : Int → F)

theorem keyRepeat_loop (s : State F) :
    forLoop MAX_KEYBOARD_KEYS (fun i s => do
      let a ← writeAt s.CORE.Input.Keyboard.keyRepeatInFrame i 0
      pure { s with CORE.Input.Keyboard.keyRepeatInFrame := a }) s
      = .ok { s with CORE.Input.Keyboard.keyRepeatInFrame := fun _ => 0 } := by
  rw [forLoop_ok MAX_KEYBOARD_KEYS _ s (fun k =>
    { s with CORE.Input.Keyboard.keyRepeatInFrame :=
        filledTo k 0 s.CORE.Input.Keyboard.keyRepeatInFrame })]
  · simp [filledTo_full]
  · simp [filledTo_zero]
  · intro k hk
    simp [writeAt_nat _ k hk, filledTo_succ]

theorem axisCount_loop (s : State F) :
    forLoop MAX_GAMEPADS (fun i s => do
      let a ← writeAt s.CORE.Input.Gamepad.axisCount i 0
      pure { s with CORE.Input.Gamepad.axisCount := a }) s
      = .ok { s with CORE.Input.Gamepad.axisCount := fun _ => 0 } := by
  rw [forLoop_ok MAX_GAMEPADS _ s (fun k =>
    { s with CORE.Input.Gamepad.axisCount := filledTo k 0 s.CORE.Input.Gamepad.axisCount })]
  · simp [filledTo_full]
  · simp [filledTo_zero]
  · intro k hk
    simp [writeAt_nat _ k hk, filledTo_succ]

theorem touch_loop (s : State F) :
    forLoop MAX_TOUCH_POINTS (fun i s => do
      let v ← readAt s.CORE.Input.Touch.currentTouchState i
      let a ← writeAt s.CORE.Input.Touch.previousTouchState i v
      pure { s with CORE.Input.Touch.previousTouchState := a }) s
      = .ok { s with CORE.Input.Touch.previousTouchState :=
                s.CORE.Input.Touch.currentTouchState } := by
  rw [forLoop_ok MAX_TOUCH_POINTS _ s (fun k =>
    { s with CORE.Input.Touch.previousTouchState :=
        copiedTo k s.CORE.Input.Touch.currentTouchState s.CORE.Input.Touch.previousTouchState })]
  · simp [copiedTo_full]
  · simp [copiedTo_zero]
  · intro k hk
    simp [readAt_nat _ k hk, writeAt_nat _ k hk, copiedTo_succ, bind, Except.bind, pure,
      Except.pure]

theorem keys_loop (s : State F) :
    forLoop MAX_KEYBOARD_KEYS (fun i s => do
      let v ← readAt s.CORE.Input.Keyboard.currentKeyState i
      let a ← writeAt s.CORE.Input.Keyboard.previousKeyState i v
      let s := { s with CORE.Input.Keyboard.previousKeyState := a }
      let r ← writeAt s.CORE.Input.Keyboard.keyRepeatInFrame i 0
      pure { s with CORE.Input.Keyboard.keyRepeatInFrame := r }) s
      = .ok { s with
                CORE.Input.Keyboard.previousKeyState := s.CORE.Input.Keyboard.currentKeyState
                CORE.Input.Keyboard.keyRepeatInFrame := fun _ => 0 } := by
  rw [forLoop_ok MAX_KEYBOARD_KEYS _ s (fun k =>
    { s with
        CORE.Input.Keyboard.previousKeyState :=
          copiedTo k s.CORE.Input.Keyboard.currentKeyState s.CORE.Input.Keyboard.previousKeyState
        CORE.Input.Keyboard.keyRepeatInFrame :=
          filledTo k 0 s.CORE.Input.Keyboard.keyRepeatInFrame })]
  · simp [copiedTo_full, filledTo_full]
  · simp [copiedTo_zero, filledTo_zero]
  · intro k hk
    simp [readAt_nat _ k hk, writeAt_nat _ k hk, copiedTo_succ, filledTo_succ, bind,
      Except.bind, pure, Except.pure]

theorem buttons_loop (s : State F) :
    forLoop MAX_MOUSE_BUTTONS (fun i s => do
      let v ← readAt s.CORE.Input.Mouse.currentButtonState i
      let a ← writeAt s.CORE.Input.Mouse.previousButtonState i v
      pure { s with CORE.Input.Mouse.previousButtonState := a }) s
      = .ok { s with CORE.Input.Mouse.previousButtonState :=
                s.CORE.Input.Mouse.currentButtonState } := by
  rw [forLoop_ok MAX_MOUSE_BUTTONS _ s (fun k =>
    { s with CORE.Input.Mouse.previousButtonState :=
        (copiedTo k s.CORE.Input.Mouse.currentButtonState
          s.CORE.Input.Mouse.previousButtonState) })]
  · simp [copiedTo_full]
  · simp [copiedTo_zero]
  · intro k hk
    simp [readAt_nat _ k hk, writeAt_nat _ k hk, copiedTo_succ, bind, Except.bind, pure,
      Except.pure]

theorem resetFrameState_eq (s : State F) :
    resetFrameState toFloat s = .ok (frameStart toFloat s) := by
  unfold resetFrameState
  simp only [keyRepeat_loop, axisCount_loop, touch_loop, keys_loop, buttons_loop, ok_bind]
  cases h : s.platform.cursorRelative <;> simp [frameStart, h]

theorem readAt_eq {n : Nat} (a : CArray n) (i : Int) :
    readAt a i = if 0 ≤ i ∧ i < n then .ok (elemAt a i) else .error .outOfBounds := by
  by_cases h : 0 ≤ i ∧ i < n <;> simp [readAt, elemAt, h]

theorem writeAt_eq {n : Nat} (a : CArray n) (i : Int) (v : Int) :
    writeAt a i v = if 0 ≤ i ∧ i < n then .ok (stored a i v) else .error .outOfBounds := by
  by_cases h : 0 ≤ i ∧ i < n
  · simp only [writeAt, h, and_self, dite_true, if_true]
    congr 1
    funext j
    by_cases hj : j = ⟨i.toNat, by omega⟩
    · subst hj
      have : ((i.toNat : Nat) : Int) = i := Int.toNat_of_nonneg h.1
      simp [stored, this]
    · have hne : (j.val : Int) ≠ i := by
        intro hji
        apply hj
        apply Fin.ext
        simp [← hji]
      simp [stored, Function.update_noteq hj, hne]
  · simp [writeAt, h]

set_option maxRecDepth 100000 in
theorem table_range :
    ∀ n, n < 100 → 0 ≤ ScancodeToKey.getD n 0 ∧ ScancodeToKey.getD n 0 < 512 := by
  decide

/-- Every result of `ConvertScancodeToKey` indexes inside the per-key arrays. -/
theorem ConvertScancodeToKey_range (sdlScancode : Int) :
    0 ≤ ConvertScancodeToKey sdlScancode ∧
      ConvertScancodeToKey sdlScancode < MAX_KEYBOARD_KEYS := by
  unfold ConvertScancodeToKey
  split
  · rename_i h
    have := table_range sdlScancode.toNat (by simp [SCANCODE_MAPPED_NUM] at h; omega)
    simpa [MAX_KEYBOARD_KEYS] using this
  · simp [KEY_NULL, MAX_KEYBOARD_KEYS]

theorem processEvent_eq (s : State F) (e : SDL_Event) :
    processEvent toFloat s e =
      if eventInBounds s.CORE.Input.Keyboard.exitKey e then .ok (applyEvent toFloat s e)
      else .error .outOfBounds := by
  cases e with
  | keyDown scancode =>
    have hr := ConvertScancodeToKey_range scancode
    by_cases hk : ConvertScancodeToKey scancode = KEY_NULL <;>
    by_cases hx : 0 ≤ s.CORE.Input.Keyboard.exitKey ∧
        s.CORE.Input.Keyboard.exitKey < MAX_KEYBOARD_KEYS <;>
    by_cases hh : elemAt (stored s.CORE.Input.Keyboard.currentKeyState
        (ConvertScancodeToKey scancode) 1) s.CORE.Input.Keyboard.exitKey = 0 <;>
    by_cases hh2 : elemAt s.CORE.Input.Keyboard.currentKeyState
        s.CORE.Input.Keyboard.exitKey = 0 <;>
    simp [processEvent, applyEvent, eventInBounds, readAt_eq, writeAt_eq, hr, hk, hx, hh, hh2,
      bind, Except.bind, pure, Except.pure]
  | keyUp scancode =>
    have hr := ConvertScancodeToKey_range scancode
    by_cases hk : ConvertScancodeToKey scancode = KEY_NULL <;>
    simp [processEvent, applyEvent, eventInBounds, writeAt_eq, hr, hk,
      bind, Except.bind, pure, Except.pure]
  | mouseButtonDown button =>
    by_cases hb : 1 ≤ button ∧ button ≤ MAX_MOUSE_BUTTONS
    · have : 0 ≤ (button : Int) - 1 ∧ (button : Int) - 1 < MAX_MOUSE_BUTTONS := by omega
      simp [processEvent, applyEvent, eventInBounds, writeAt_eq, hb, this,
        bind, Except.bind, pure, Except.pure]
    · have h2 : ¬ (1 ≤ button ∧ (button : Int) - 1 < MAX_MOUSE_BUTTONS) := by omega
      simp [processEvent, applyEvent, eventInBounds, writeAt_eq, hb, h2,
        bind, Except.bind, pure, Except.pure]
  | mouseButtonUp button =>
    by_cases hb : 1 ≤ button ∧ button ≤ MAX_MOUSE_BUTTONS
    · have : 0 ≤ (button : Int) - 1 ∧ (button : Int) - 1 < MAX_MOUSE_BUTTONS := by omega
      simp [processEvent, applyEvent, eventInBounds, writeAt_eq, hb, this,
        bind, Except.bind, pure, Except.pure]
    · have h2 : ¬ (1 ≤ button ∧ (button : Int) - 1 < MAX_MOUSE_BUTTONS) := by omega
      simp [processEvent, applyEvent, eventInBounds, writeAt_eq, hb, h2,
        bind, Except.bind, pure, Except.pure]
  | mouseMotion x y xrel yrel =>
    cases h : s.platform.cursorRelative <;>
    simp [processEvent, applyEvent, eventInBounds, h, pure, Except.pure]
  | quit => simp [processEvent, applyEvent, eventInBounds, pure, Except.pure]
  | window ev => simp [processEvent, applyEvent, eventInBounds, pure, Except.pure]
  | mouseWheel x y => simp [processEvent, applyEvent, eventInBounds, pure, Except.pure]
  | joyAxisMotion which axis => simp [processEvent, applyEvent, eventInBounds, pure, Except.pure]
  | other ty => simp [processEvent, applyEvent, eventInBounds, pure, Except.pure]

theorem applyEvent_outside (s : State F) (e : SDL_Event) :
    outsideEvents (applyEvent toFloat s e) = outsideEvents s := by
  cases e <;> simp only [applyEvent, outsideEvents]
  split <;> rfl

theorem foldl_outside (pending : List SDL_Event) (s : State F) :
    outsideEvents (pending.foldl (applyEvent toFloat) s) = outsideEvents s := by
  induction pending generalizing s with
  | nil => rfl
  | cons e es ih => rw [List.foldl_cons, ih, applyEvent_outside]

theorem applyEvent_exitKey (s : State F) (e : SDL_Event) :
    (applyEvent toFloat s e).CORE.Input.Keyboard.exitKey = s.CORE.Input.Keyboard.exitKey :=
  congrArg (fun p => p.1) (applyEvent_outside toFloat s e)

theorem eventLoop_eq (pending : List SDL_Event) (s : State F) :
    eventLoop toFloat s pending =
      if InBounds s.CORE.Input.Keyboard.exitKey pending then
        .ok (pending.foldl (applyEvent toFloat) s)
      else .error .outOfBounds := by
  induction pending generalizing s with
  | nil => simp [eventLoop, InBounds, pure, Except.pure]
  | cons e es ih =>
    simp only [eventLoop, processEvent_eq]
    by_cases he : eventInBounds s.CORE.Input.Keyboard.exitKey e = true
    · simp only [he, if_true, ok_bind, ih, applyEvent_exitKey, List.foldl_cons]
      by_cases hes : InBounds s.CORE.Input.Keyboard.exitKey es
      · have : InBounds s.CORE.Input.Keyboard.exitKey (e :: es) := by
          intro x hx
          rcases List.mem_cons.1 hx with rfl | hx
          · exact he
          · exact hes x hx
        simp [hes, this]
      · have : ¬ InBounds s.CORE.Input.Keyboard.exitKey (e :: es) :=
          fun h => hes (fun x hx => h x (List.mem_cons_of_mem _ hx))
        simp [hes, this]
    · have : ¬ InBounds s.CORE.Input.Keyboard.exitKey (e :: es) :=
        fun h => he (h e (List.mem_cons_self _ _))
      simp only [he, this, if_false]
      rfl

/-- The whole poll in closed form: the frame-start state with every pending
event applied in order, or a fault when some event indexes out of bounds. -/
theorem PollInputEvents_eq (s : State F) (pending : List SDL_Event) :
    PollInputEvents toFloat s pending =
      if InBounds s.CORE.Input.Keyboard.exitKey pending then
        .ok (pending.foldl (applyEvent toFloat) (frameStart toFloat s))
      else .error .outOfBounds := by
  simp only [PollInputEvents, resetFrameState_eq, ok_bind, eventLoop_eq]
  rfl

/-- A poll returns a state exactly when its pending events are in bounds. -/
theorem PollInputEvents_ok_iff (s : State F) (pending : List SDL_Event) :
    (∃ s', PollInputEvents toFloat s pending = .ok s') ↔
      InBounds s.CORE.Input.Keyboard.exitKey pending := by
  rw [PollInputEvents_eq]
  by_cases h : InBounds s.CORE.Input.Keyboard.exitKey pending <;> simp [h]

/-- Polling is sequential: the poll of a queue with one more event at its end
is the poll of the queue followed by the `switch` on that event. -/
theorem eventLoop_append_singleton (pending : List SDL_Event) (e : SDL_Event) (s : State F) :
    eventLoop toFloat s (pending ++ [e]) =
      eventLoop toFloat s pending >>= fun s1 => processEvent toFloat s1 e := by
  induction pending generalizing s with
  | nil =>
    simp only [List.nil_append, eventLoop, pure, Except.pure, ok_bind]
    cases processEvent toFloat s e <;> rfl
  | cons x xs ih =>
    simp only [List.cons_append, eventLoop]
    cases hx : processEvent toFloat s x with
    | error err => rfl
    | ok s1 => exact ih s1

theorem PollInputEvents_append_singleton (s : State F) (pending : List SDL_Event)
    (e : SDL_Event) :
    PollInputEvents toFloat s (pending ++ [e]) =
      PollInputEvents toFloat s pending >>= fun s1 => processEvent toFloat s1 e := by
  simp only [PollInputEvents, resetFrameState_eq, ok_bind, eventLoop_append_singleton]

/-- A field that every event either overwrites with a value of its own or
leaves alone ends a poll with the value of the last event that overwrites it. -/
theorem foldl_last {α : Type} (get : State F → α) (upd : SDL_Event → Option α)
    (hstep : ∀ s e, get (applyEvent toFloat s e) = (upd e).getD (get s))
    (pending : List SDL_Event) (s : State F) :
    get (pending.foldl (applyEvent toFloat) s) =
      (pending.reverse.findSome? upd).getD (get s) := by
  induction pending using List.reverseRecOn with
  | nil => simp
  | append_singleton l e ih =>
    simp only [List.foldl_append, List.foldl_cons, List.foldl_nil, List.reverse_append,
      List.reverse_cons, List.reverse_nil, List.nil_append, List.singleton_append,
      List.findSome?_cons, hstep, ih]
    cases upd e <;> rfl

theorem elemAt_fin {n : Nat} (a : CArray n) (k : Fin n) : elemAt a (k.val : Int) = a k := by
  have h : 0 ≤ (k.val : Int) ∧ (k.val : Int) < n := ⟨by omega, by have := k.isLt; omega⟩
  simp [elemAt, h]

theorem elemAt_stored {n : Nat} (a : CArray n) (i j : Int) (v : Int) :
    elemAt (stored a i v) j =
      if 0 ≤ j ∧ j < n ∧ j = i then v else elemAt a j := by
  by_cases h : 0 ≤ j ∧ j < n
  · have hj : ((j.toNat : Nat) : Int) = j := Int.toNat_of_nonneg h.1
    unfold elemAt
    rw [dif_pos h, dif_pos h]
    simp only [stored, hj]
    by_cases hji : j = i
    · rw [if_pos hji, if_pos ⟨h.1, h.2, hji⟩]
    · rw [if_neg hji, if_neg (fun hh => hji hh.2.2)]
  · have h2 : ¬ (0 ≤ j ∧ j < n ∧ j = i) := fun hh => h ⟨hh.1, hh.2.1⟩
    simp only [elemAt, h, h2, dite_false, if_false]

theorem applyEvent_key (s : State F) (e : SDL_Event) (k : Fin MAX_KEYBOARD_KEYS)
    (hk : (k.val : Int) ≠ KEY_NULL) :
    (applyEvent toFloat s e).CORE.Input.Keyboard.currentKeyState k =
      (keyEventLevel k.val e).getD (s.CORE.Input.Keyboard.currentKeyState k) := by
  cases e with
  | keyDown scancode =>
    by_cases hc : ConvertScancodeToKey scancode = (k.val : Int)
    · simp [applyEvent, keyEventLevel, hc, hk, stored]
    · have hc2 : ¬ ((k.val : Int) = ConvertScancodeToKey scancode) := fun h => hc h.symm
      by_cases hn : ConvertScancodeToKey scancode = KEY_NULL
      · have hk2 : ¬ (KEY_NULL = (k.val : Int)) := fun h => hk h.symm
        simp [applyEvent, keyEventLevel, hn, hk2]
      · simp [applyEvent, keyEventLevel, hc, hc2, hn, stored]
  | keyUp scancode =>
    by_cases hc : ConvertScancodeToKey scancode = (k.val : Int)
    · simp [applyEvent, keyEventLevel, hc, hk, stored]
    · have hc2 : ¬ ((k.val : Int) = ConvertScancodeToKey scancode) := fun h => hc h.symm
      by_cases hn : ConvertScancodeToKey scancode = KEY_NULL
      · have hk2 : ¬ (KEY_NULL = (k.val : Int)) := fun h => hk h.symm
        simp [applyEvent, keyEventLevel, hn, hk2]
      · simp [applyEvent, keyEventLevel, hc, hc2, hn, stored]
  | mouseMotion x y xrel yrel =>
    simp only [applyEvent, keyEventLevel, Option.getD_none]
    split <;> rfl
  | quit => rfl
  | window ev => rfl
  | mouseButtonDown button => rfl
  | mouseButtonUp button => rfl
  | mouseWheel x y => rfl
  | joyAxisMotion which axis => rfl
  | other ty => rfl

theorem findSome?_map_fun {α β γ : Type} (f : α → Option β) (g : β → γ) (l : List α) :
    l.findSome? (fun a => (f a).map g) = (l.findSome? f).map g := by
  induction l with
  | nil => rfl
  | cons a l ih =>
    simp only [List.findSome?_cons]
    cases f a with
    | none => simpa using ih
    | some b => rfl

theorem applyEvent_wheel (s : State F) (e : SDL_Event) :
    (applyEvent toFloat s e).CORE.Input.Mouse.currentWheelMove =
      ((wheelDelta e).map fun d => (⟨toFloat d.1, toFloat d.2⟩ : Vector2 F)).getD
        s.CORE.Input.Mouse.currentWheelMove := by
  cases e <;> simp only [applyEvent, wheelDelta, Option.map, Option.getD]
  split <;> rfl

theorem applyEvent_shouldClose_mono (s : State F) (e : SDL_Event)
    (h : s.CORE.Window.shouldClose = true) :
    (applyEvent toFloat s e).CORE.Window.shouldClose = true := by
  cases e <;> simp only [applyEvent, h, ite_self]
  split <;> exact h

theorem foldl_shouldClose_mono (pending : List SDL_Event) (s : State F)
    (h : s.CORE.Window.shouldClose = true) :
    (pending.foldl (applyEvent toFloat) s).CORE.Window.shouldClose = true := by
  induction pending generalizing s with
  | nil => exact h
  | cons e es ih => exact ih _ (applyEvent_shouldClose_mono toFloat s e h)

theorem applyEvent_exit_keyDown (s : State F) (scancode : Int)
    (hK : s.CORE.Input.Keyboard.exitKey ≠ KEY_NULL)
    (hres : ConvertScancodeToKey scancode = s.CORE.Input.Keyboard.exitKey) :
    (applyEvent toFloat s (.keyDown scancode)).CORE.Window.shouldClose = true := by
  have hr := ConvertScancodeToKey_range scancode
  rw [hres] at hr
  have h1 : elemAt (stored s.CORE.Input.Keyboard.currentKeyState
      s.CORE.Input.Keyboard.exitKey 1) s.CORE.Input.Keyboard.exitKey = 1 := by
    rw [elemAt_stored, if_pos ⟨hr.1, hr.2, rfl⟩]
  simp [applyEvent, hres, hK, h1]

/-- While the exit key is up, an event that is neither a quit nor a key-down
resolving to the exit key keeps it up and keeps the close flag. -/
theorem applyEvent_keeps_shouldClose (s : State F) (e : SDL_Event)
    (hheld : elemAt s.CORE.Input.Keyboard.currentKeyState s.CORE.Input.Keyboard.exitKey = 0)
    (hquit : e ≠ .quit)
    (hkey : ∀ scancode, e = .keyDown scancode →
      ConvertScancodeToKey scancode = KEY_NULL ∨
        ConvertScancodeToKey scancode ≠ s.CORE.Input.Keyboard.exitKey) :
    elemAt (applyEvent toFloat s e).CORE.Input.Keyboard.currentKeyState
        (applyEvent toFloat s e).CORE.Input.Keyboard.exitKey = 0 ∧
      (applyEvent toFloat s e).CORE.Window.shouldClose = s.CORE.Window.shouldClose := by
  cases e with
  | quit => exact absurd rfl hquit
  | keyDown scancode =>
    by_cases hn : ConvertScancodeToKey scancode = KEY_NULL
    · simp [applyEvent, hn, hheld]
    · have hne : ConvertScancodeToKey scancode ≠ s.CORE.Input.Keyboard.exitKey := by
        rcases hkey scancode rfl with h | h
        · exact absurd h hn
        · exact h
      have h1 : elemAt (stored s.CORE.Input.Keyboard.currentKeyState
          (ConvertScancodeToKey scancode) 1) s.CORE.Input.Keyboard.exitKey = 0 := by
        rw [elemAt_stored, if_neg (fun hh => hne hh.2.2.symm)]
        exact hheld
      simp [applyEvent, hn, h1]
  | keyUp scancode =>
    by_cases hn : ConvertScancodeToKey scancode = KEY_NULL
    · simp [applyEvent, hn, hheld]
    · have h1 : elemAt (stored s.CORE.Input.Keyboard.currentKeyState
          (ConvertScancodeToKey scancode) 0) s.CORE.Input.Keyboard.exitKey = 0 := by
        rw [elemAt_stored]
        split
        · rfl
        · exact hheld
      simp [applyEvent, hn, h1]
  | mouseMotion x y xrel yrel =>
    simp only [applyEvent]
    split <;> exact ⟨hheld, rfl⟩
  | window ev => exact ⟨hheld, rfl⟩
  | mouseButtonDown button => exact ⟨hheld, rfl⟩
  | mouseButtonUp button => exact ⟨hheld, rfl⟩
  | mouseWheel x y => exact ⟨hheld, rfl⟩
  | joyAxisMotion which axis => exact ⟨hheld, rfl⟩
  | other ty => exact ⟨hheld, rfl⟩

theorem foldl_keeps_shouldClose (pending : List SDL_Event) (s : State F)
    (hheld : elemAt s.CORE.Input.Keyboard.currentKeyState s.CORE.Input.Keyboard.exitKey = 0)
    (hquit : SDL_Event.quit ∉ pending)
    (hkey : ∀ scancode, SDL_Event.keyDown scancode ∈ pending →
      ConvertScancodeToKey scancode = KEY_NULL ∨
        ConvertScancodeToKey scancode ≠ s.CORE.Input.Keyboard.exitKey) :
    (pending.foldl (applyEvent toFloat) s).CORE.Window.shouldClose =
      s.CORE.Window.shouldClose := by
  induction pending generalizing s with
  | nil => rfl
  | cons e es ih =>
    have he := applyEvent_keeps_shouldClose toFloat s e hheld
      (fun h => hquit (h ▸ List.mem_cons_self _ _))
      (fun sc h => hkey sc (h ▸ List.mem_cons_self _ _))
    rw [List.foldl_cons, ih _ he.1 (fun h => hquit (List.mem_cons_of_mem _ h)), he.2]
    intro sc hsc
    rw [applyEvent_exitKey]
    exact hkey sc (List.mem_cons_of_mem _ hsc)

theorem applyEvent_keys (s : State F) (e : SDL_Event) :
    (applyEvent toFloat s e).CORE.Input.Keyboard.currentKeyState =
      keysAfter s.CORE.Input.Keyboard.currentKeyState e := by
  cases e <;> simp only [applyEvent, keysAfter]
  split <;> rfl

theorem foldl_keys (pending : List SDL_Event) (s : State F) :
    (pending.foldl (applyEvent toFloat) s).CORE.Input.Keyboard.currentKeyState =
      pending.foldl keysAfter s.CORE.Input.Keyboard.currentKeyState := by
  induction pending generalizing s with
  | nil => rfl
  | cons e es ih => rw [List.foldl_cons, List.foldl_cons, ih, applyEvent_keys]

theorem keysAfter_unresolved (keys : CArray MAX_KEYBOARD_KEYS) (e : SDL_Event)
    (h : unresolvedKeyEvent e = true) : keysAfter keys e = keys := by
  cases e <;> simp_all [unresolvedKeyEvent, keysAfter]

/-- Events that leave the folded value alone can be dropped from the sequence. -/
theorem foldl_filter_of_fixed {σ : Type} (step : σ → SDL_Event → σ)
    (drop : SDL_Event → Bool) (hfix : ∀ a e, drop e = true → step a e = a)
    (pending : List SDL_Event) (a : σ) :
    (pending.filter fun e => !drop e).foldl step a = pending.foldl step a := by
  induction pending generalizing a with
  | nil => rfl
  | cons e es ih =>
    cases hd : drop e with
    | true => simp only [List.filter_cons, hd, Bool.not_true, List.foldl_cons, hfix a e hd, ih,
        Bool.false_eq_true, if_false]
    | false => simp only [List.filter_cons, hd, Bool.not_false, List.foldl_cons, ih, if_true]

theorem InBounds_filter (exitKey : Int) (pending : List SDL_Event) (keep : SDL_Event → Bool)
    (h : InBounds exitKey pending) : InBounds exitKey (pending.filter keep) :=
  fun e he => h e (List.mem_of_mem_filter he)

theorem applyEvent_button (s : State F) (e : SDL_Event) (i : Fin MAX_MOUSE_BUTTONS) :
    (applyEvent toFloat s e).CORE.Input.Mouse.currentButtonState i =
      (buttonEventLevel i e).getD (s.CORE.Input.Mouse.currentButtonState i) := by
  cases e with
  | mouseButtonDown button =>
    by_cases hb : (button : Int) - 1 = i.val
    · simp [applyEvent, buttonEventLevel, stored, hb]
    · have hb2 : ¬ ((i.val : Int) = (button : Int) - 1) := fun h => hb h.symm
      simp [applyEvent, buttonEventLevel, stored, hb, hb2]
  | mouseButtonUp button =>
    by_cases hb : (button : Int) - 1 = i.val
    · simp [applyEvent, buttonEventLevel, stored, hb]
    · have hb2 : ¬ ((i.val : Int) = (button : Int) - 1) := fun h => hb h.symm
      simp [applyEvent, buttonEventLevel, stored, hb, hb2]
  | mouseMotion x y xrel yrel =>
    simp only [applyEvent, buttonEventLevel, Option.getD_none]
    split <;> rfl
  | quit => rfl
  | window ev => rfl
  | keyDown scancode => rfl
  | keyUp scancode => rfl
  | mouseWheel x y => rfl
  | joyAxisMotion which axis => rfl
  | other ty => rfl

theorem applyEvent_inert (s : State F) (e : SDL_Event) (h : inertEvent e = true) :
    applyEvent toFloat s e = s := by
  cases e <;> first | rfl | simp [inertEvent] at h

theorem eventInBounds_inert (exitKey : Int) (e : SDL_Event) (h : inertEvent e = true) :
    eventInBounds exitKey e = true := by
  cases e <;> first | rfl | simp [inertEvent] at h

theorem InBounds_filter_inert (exitKey : Int) (pending : List SDL_Event) :
    InBounds exitKey (pending.filter fun e => !inertEvent e) ↔ InBounds exitKey pending := by
  constructor
  · intro h e he
    cases hi : inertEvent e with
    | true => exact eventInBounds_inert exitKey e hi
    | false => exact h e (List.mem_filter.2 ⟨he, by simp [hi]⟩)
  · exact InBounds_filter exitKey pending _

theorem applyEvent_position (s : State F) (e : SDL_Event) (h : isMouseMotion e = false) :
    (applyEvent toFloat s e).CORE.Input.Mouse.currentPosition =
        s.CORE.Input.Mouse.currentPosition ∧
      (applyEvent toFloat s e).CORE.Input.Mouse.previousPosition =
        s.CORE.Input.Mouse.previousPosition := by
  cases e <;> first | exact ⟨rfl, rfl⟩ | simp [isMouseMotion] at h

theorem foldl_position (pending : List SDL_Event) (s : State F)
    (h : ∀ e ∈ pending, isMouseMotion e = false) :
    (pending.foldl (applyEvent toFloat) s).CORE.Input.Mouse.currentPosition =
        s.CORE.Input.Mouse.currentPosition ∧
      (pending.foldl (applyEvent toFloat) s).CORE.Input.Mouse.previousPosition =
        s.CORE.Input.Mouse.previousPosition := by
  induction pending generalizing s with
  | nil => exact ⟨rfl, rfl⟩
  | cons e es ih =>
    have he := applyEvent_position toFloat s e (h e (List.mem_cons_self _ _))
    have hes := ih (applyEvent toFloat s e) (fun x hx => h x (List.mem_cons_of_mem _ hx))
    rw [List.foldl_cons, hes.1, hes.2]
    exact he

theorem applyEvent_key_null (s : State F) (e : SDL_Event) (z : Fin MAX_KEYBOARD_KEYS)
    (hz : (z.val : Int) = KEY_NULL) :
    (applyEvent toFloat s e).CORE.Input.Keyboard.currentKeyState z =
      s.CORE.Input.Keyboard.currentKeyState z := by
  rw [applyEvent_keys]
  cases e with
  | keyDown scancode =>
    by_cases hn : ConvertScancodeToKey scancode = KEY_NULL
    · simp [keysAfter, hn]
    · have : ¬ ((z.val : Int) = ConvertScancodeToKey scancode) := fun h => hn (h ▸ hz)
      simp [keysAfter, hn, stored, this]
  | keyUp scancode =>
    by_cases hn : ConvertScancodeToKey scancode = KEY_NULL
    · simp [keysAfter, hn]
    · have : ¬ ((z.val : Int) = ConvertScancodeToKey scancode) := fun h => hn (h ▸ hz)
      simp [keysAfter, hn, stored, this]
  | quit => rfl
  | window ev => rfl
  | mouseButtonDown button => rfl
  | mouseButtonUp button => rfl
  | mouseWheel x y => rfl
  | mouseMotion x y xrel yrel => rfl
  | joyAxisMotion which axis => rfl
  | other ty => rfl

theorem foldl_key_null (pending : List SDL_Event) (s : State F) (z : Fin MAX_KEYBOARD_KEYS)
    (hz : (z.val : Int) = KEY_NULL) :
    (pending.foldl (applyEvent toFloat) s).CORE.Input.Keyboard.currentKeyState z =
      s.CORE.Input.Keyboard.currentKeyState z := by
  induction pending generalizing s with
  | nil => rfl
  | cons e es ih => rw [List.foldl_cons, ih, applyEvent_key_null toFloat s e z hz]

set_option maxRecDepth 100000 in
theorem table_entries_range :
    ∀ key ∈ ScancodeToKey, 0 ≤ key ∧ key < 512 := by
  decide

set_option maxRecDepth 100000 in
/-- A mapped table entry occurs first at its own index, so no other slot holds
it. -/
theorem table_indexOf :
    ∀ n, n < 100 → ScancodeToKey.getD n 0 ≠ 0 →
      ScancodeToKey.indexOf (ScancodeToKey.getD n 0) = n := by
  decide

set_option maxRecDepth 100000 in
theorem table_unused_slots :
    ∀ n, n < 100 →
      (ScancodeToKey.getD n 0 = 0 ↔ n = 0 ∨ n = 1 ∨ n = 2 ∨ n = 3 ∨ n = 50) := by
  decide

theorem ConvertScancodeToKey_of_lt (sdlScancode : Int) (h0 : 0 ≤ sdlScancode)
    (h1 : sdlScancode < 100) :
    ConvertScancodeToKey sdlScancode = ScancodeToKey.getD sdlScancode.toNat 0 := by
  have : 0 ≤ sdlScancode ∧ sdlScancode < SCANCODE_MAPPED_NUM := by
    simp only [SCANCODE_MAPPED_NUM]; omega
  rw [ConvertScancodeToKey, if_pos this]

/-- A poll that faults returns no state, whatever is asked of the state. -/
theorem no_state_of_fault (s : State F) (pending : List SDL_Event)
    (h : PollInputEvents toFloat s pending = .error .outOfBounds) (P : State F → Prop) :
    ¬ ∃ s', PollInputEvents toFloat s pending = .ok s' ∧ P s' := by
  rintro ⟨s', hs, -⟩
  rw [h] at hs
  cases hs

theorem InBounds_of_buttonIdsTracked (exitKey : Int) (pending : List SDL_Event)
    (hx : 0 ≤ exitKey ∧ exitKey < MAX_KEYBOARD_KEYS) (hb : ButtonIdsTracked pending) :
    InBounds exitKey pending := by
  intro e he
  have hbe := hb e he
  cases e <;> simp_all [eventInBounds, buttonIdTracked]

end PollLemmas

/-! ## Window state lemmas -/

section WindowLemmas

variable {F : Type}

theorem ite_issue_globals (c : Prop) [Decidable c] (d : Desktop F) (x : Call) :
    (if c then d.issue x else d).globals = d.globals := by
  split <;> rfl

theorem ite_issue_issue_globals (c : Prop) [Decidable c] (d : Desktop F) (x y : Call) :
    (if c then (d.issue x).issue y else d).globals = d.globals := by
  split <;> rfl

theorem ite_issue_calls (c : Prop) [Decidable c] (d : Desktop F) (x : Call) :
    (if c then d.issue x else d).calls = d.calls ++ if c then [x] else [] := by
  split
  · rfl
  · simp

theorem ite_issue_issue_calls (c : Prop) [Decidable c] (d : Desktop F) (x y : Call) :
    (if c then (d.issue x).issue y else d).calls = d.calls ++ if c then [x, y] else [] := by
  split
  · simp [Desktop.issue]
  · simp

theorem SetWindowState_flags (flags : Nat) (d : Desktop F) :
    (SetWindowState flags d).globals.CORE.Window.flags =
      d.globals.CORE.Window.flags ||| flags := by
  simp only [SetWindowState, ite_issue_globals, ite_issue_issue_globals]

theorem ClearWindowState_flags (flags : Nat) (d : Desktop F) :
    (ClearWindowState flags d).globals.CORE.Window.flags =
      d.globals.CORE.Window.flags &&& uintNot flags := by
  simp only [ClearWindowState, ite_issue_globals, ite_issue_issue_globals]

theorem mem_ite_nil (c : Prop) [Decidable c] (l : List Call) (x : Call) :
    x ∈ (if c then l else []) ↔ c ∧ x ∈ l := by
  split <;> simp [*]

/-- The only always-on-top request `SetWindowState` can issue is the one of its
`FLAG_WINDOW_TOPMOST` branch, which passes `SDL_FALSE`. -/
theorem SetWindowState_alwaysOnTop (flags : Nat) (d : Desktop F) (b : Bool) :
    Call.SDL_SetWindowAlwaysOnTop b ∈ (SetWindowState flags d).calls ↔
      Call.SDL_SetWindowAlwaysOnTop b ∈ d.calls ∨
        (flags &&& FLAG_WINDOW_TOPMOST ≠ 0 ∧ b = false) := by
  simp only [SetWindowState, ite_issue_calls, ite_issue_issue_calls, List.mem_append,
    mem_ite_nil]
  simp

theorem ClearWindowState_alwaysOnTop (flags : Nat) (d : Desktop F) (b : Bool) :
    Call.SDL_SetWindowAlwaysOnTop b ∈ (ClearWindowState flags d).calls ↔
      Call.SDL_SetWindowAlwaysOnTop b ∈ d.calls ∨
        (flags &&& FLAG_WINDOW_TOPMOST ≠ 0 ∧ b = false) := by
  simp only [ClearWindowState, ite_issue_calls, ite_issue_issue_calls, List.mem_append,
    mem_ite_nil]
  simp

theorem testBit_uintNot (x i : Nat) :
    (uintNot x).testBit i = (decide (i < 32) && !x.testBit i) := by
  have h1 : (4294967295 : Nat) = 2 ^ 32 - 1 := by norm_num
  have h2 : (4294967296 : Nat) = 2 ^ 32 := by norm_num
  rw [uintNot, h1, h2, Nat.testBit_xor, Nat.testBit_two_pow_sub_one, Nat.testBit_mod_two_pow]
  cases decide (i < 32) <;> cases x.testBit i <;> rfl

theorem testBit_word (w i : Nat) (hw : w < 2 ^ 32) (hi : 32 ≤ i) : w.testBit i = false :=
  Nat.testBit_lt_two_pow (Nat.lt_of_lt_of_le hw (Nat.pow_le_pow_right (by decide) hi))

/-- On a 32-bit word, `w & ~f` keeps exactly the bits of `w` that are not in
`f`. -/
theorem testBit_and_uintNot (w f i : Nat) (hw : w < 2 ^ 32) :
    (w &&& uintNot f).testBit i = (w.testBit i && !f.testBit i) := by
  rw [Nat.testBit_and, testBit_uintNot]
  by_cases hi : i < 32
  · simp [hi]
  · rw [testBit_word w i hw (by omega)]
    rfl

theorem and_uintNot_lt (w f : Nat) (hw : w < 2 ^ 32) : w &&& uintNot f < 2 ^ 32 := by
  apply Nat.lt_pow_two_of_testBit
  intro i hi
  rw [testBit_and_uintNot w f i hw, testBit_word w i hw hi]
  rfl

theorem or_and_uintNot (w f : Nat) (hw : w < 2 ^ 32) (hf : f < 2 ^ 32) :
    (w ||| f) &&& uintNot f = w &&& uintNot f := by
  apply Nat.eq_of_testBit_eq
  intro i
  rw [testBit_and_uintNot _ f i (Nat.or_lt_two_pow hw hf), testBit_and_uintNot w f i hw,
    Nat.testBit_or]
  cases w.testBit i <;> cases f.testBit i <;> rfl

theorem and_uintNot_eq_self_iff (w f : Nat) (hw : w < 2 ^ 32) :
    w &&& uintNot f = w ↔ w &&& f = 0 := by
  constructor
  · intro h
    apply Nat.eq_of_testBit_eq
    intro i
    have hi := congrArg (fun n => n.testBit i) h
    simp only [testBit_and_uintNot w f i hw] at hi
    rw [Nat.testBit_and, Nat.zero_testBit]
    revert hi
    cases w.testBit i <;> cases f.testBit i <;> simp
  · intro h
    apply Nat.eq_of_testBit_eq
    intro i
    have hi := congrArg (fun n => n.testBit i) h
    simp only [Nat.testBit_and, Nat.zero_testBit] at hi
    rw [testBit_and_uintNot w f i hw]
    revert hi
    cases w.testBit i <;> cases f.testBit i <;> simp

end WindowLemmas

/-! ## Snapshot of the previous state -/

section Claims

variable {F : Type} (toFloat : Int → F)

/-- C6, as stated, fails: with the exit key `KEY_ESCAPE` held since an earlier
frame and the close flag false, a poll of the single key-down of scancode 4
(which resolves to `KEY_A`, not to the exit key; no quit event) returns with
`CORE.Window.shouldClose` true.  It also fails where the poll indexes out of
bounds and returns no state: on a mouse-button event of raw id 9, and on a
key-down event when the exit key is 1000. -/
theorem other_key_down_sets_shouldClose :
    SDL_Event.quit ∉ [SDL_Event.keyDown 4] ∧
    ConvertScancodeToKey 4 = KEY_A ∧
    KEY_A ≠ heldExitState.CORE.Input.Keyboard.exitKey ∧
    heldExitState.CORE.Window.shouldClose = false ∧
    (∃ s', PollInputEvents id heldExitState [.keyDown 4] = .ok s' ∧
      s'.CORE.Window.shouldClose = true) ∧
    SDL_Event.quit ∉ [SDL_Event.mouseButtonDown 9] ∧
    (∀ scancode, SDL_Event.keyDown scancode ∉ [SDL_Event.mouseButtonDown 9]) ∧
    (¬ ∃ s', PollInputEvents id idleState [.mouseButtonDown 9] = .ok s' ∧
      s'.CORE.Window.shouldClose = idleState.CORE.Window.shouldClose) ∧
    KEY_A ≠ wildExitState.CORE.Input.Keyboard.exitKey ∧
    (¬ ∃ s', PollInputEvents id wildExitState [.keyDown 4] = .ok s' ∧
      s'.CORE.Window.shouldClose = wildExitState.CORE.Window.shouldClose) := by
  have h1 : PollInputEvents id idleState [.mouseButtonDown 9] = .error .outOfBounds := by
    rw [PollInputEvents_eq, if_neg (by decide)]
  have h2 : PollInputEvents id wildExitState [.keyDown 4] = .error .outOfBounds := by
    rw [PollInputEvents_eq, if_neg (by decide)]
  refine ⟨by decide, by decide, by decide, rfl, ?_, by decide, ?_,
    no_state_of_fault id _ _ h1 _, by decide, no_state_of_fault id _ _ h2 _⟩
  · rw [PollInputEvents_eq, if_pos (by decide)]
    exact ⟨_, rfl, by decide⟩
  · intro scancode hmem
    simp at hmem

/-- C6, amended: when the exit key `K` is not held before the poll
(`currentKeyState[K] = 0`), the pending events contain no quit event and no
key-down whose scancode resolves to `K`, and the array accesses of the sequence
are in bounds (each mouse-button event has a raw id in `1..MAX_MOUSE_BUTTONS`,
and `K` is an index of the per-key arrays when the sequence has a key-down
event), the poll returns with `CORE.Window.shouldClose` equal to its value
before the poll. -/
theorem shouldClose_kept_without_exit_key (s : State F) (pending : List SDL_Event)
    (hheld : elemAt s.CORE.Input.Keyboard.currentKeyState s.CORE.Input.Keyboard.exitKey = 0)
    (hquit : SDL_Event.quit ∉ pending)
    (hkey : ∀ scancode, SDL_Event.keyDown scancode ∈ pending →
      ConvertScancodeToKey scancode = KEY_NULL ∨
        ConvertScancodeToKey scancode ≠ s.CORE.Input.Keyboard.exitKey)
    (h : InBounds s.CORE.Input.Keyboard.exitKey pending) :
    ∃ s', PollInputEvents toFloat s pending = .ok s' ∧
      s'.CORE.Window.shouldClose = s.CORE.Window.shouldClose := by
  refine ⟨_, by rw [PollInputEvents_eq, if_pos h], ?_⟩
  exact foldl_keeps_shouldClose toFloat pending (frameStart toFloat s) hheld hquit hkey

theorem shouldClose_kept_without_exit_key_witness :
    elemAt idleState.CORE.Input.Keyboard.currentKeyState
      idleState.CORE.Input.Keyboard.exitKey = 0 ∧
    SDL_Event.quit ∉ [SDL_Event.keyDown 4, .keyDown 0, .keyUp 41] ∧
    InBounds idleState.CORE.Input.Keyboard.exitKey [.keyDown 4, .keyDown 0, .keyUp 41] ∧
    ∃ s', PollInputEvents id idleState [.keyDown 4, .keyDown 0, .keyUp 41] = .ok s' ∧
      s'.CORE.Window.shouldClose = idleState.CORE.Window.shouldClose :=
  ⟨by decide, by decide, by decide,
    shouldClose_kept_without_exit_key id idleState [.keyDown 4, .keyDown 0, .keyUp 41]
      (by decide) (by decide)
      (by
        intro sc hsc
        have hsc2 : sc = 4 ∨ sc = 0 := by simpa using hsc
        rcases hsc2 with rfl | rfl <;> decide)
      (by decide)⟩

/-! ## The per-frame resets, the wheel and the cursor position -/

/-- C7, as stated, fails: in relative cursor mode a poll of the empty queue
resets the mouse `currentPosition` to (0, 0) instead of leaving it unchanged,
and it also resets `Gamepad.lastButtonPressed`, a field outside the claimed
list. -/
theorem empty_poll_changes_position_and_last_button :
    relativeState.platform.cursorRelative = true ∧
    ∃ s', PollInputEvents id relativeState [] = .ok s' ∧
      s'.CORE.Input.Mouse.currentPosition.x ≠ relativeState.CORE.Input.Mouse.currentPosition.x ∧
      s'.CORE.Input.Mouse.previousPosition.x ≠
        relativeState.CORE.Input.Mouse.currentPosition.x ∧
      s'.CORE.Input.Gamepad.lastButtonPressed ≠
        relativeState.CORE.Input.Gamepad.lastButtonPressed := by
  refine ⟨rfl, ?_⟩
  rw [PollInputEvents_eq, if_pos (by decide)]
  exact ⟨_, rfl, by decide, by decide, by decide⟩

/-- C7, amended: a poll of the empty queue returns, and in the state it returns
the wheel delta is (0, 0), the key and char queue counts are 0, every key-repeat
flag and every gamepad axis count is 0, `Gamepad.lastButtonPressed` is
`GAMEPAD_BUTTON_UNKNOWN`, and the "previous" key, mouse-button and touch arrays
equal the "current" ones, which are unchanged.  In absolute cursor mode
`previousPosition` is the unchanged `currentPosition`; in relative cursor mode
`currentPosition` is (0, 0) and `previousPosition` is unchanged.  Every other
field is unchanged. -/
theorem empty_poll_resets_frame_fields (s : State F) :
    ∃ s', PollInputEvents toFloat s [] = .ok s' ∧
      s'.CORE.Input.Mouse.currentWheelMove = ⟨toFloat 0, toFloat 0⟩ ∧
      s'.CORE.Input.Keyboard.keyPressedQueueCount = 0 ∧
      s'.CORE.Input.Keyboard.charPressedQueueCount = 0 ∧
      (∀ i, s'.CORE.Input.Keyboard.keyRepeatInFrame i = 0) ∧
      (∀ g, s'.CORE.Input.Gamepad.axisCount g = 0) ∧
      s'.CORE.Input.Gamepad.lastButtonPressed = GAMEPAD_BUTTON_UNKNOWN ∧
      s'.CORE.Input.Keyboard.previousKeyState = s.CORE.Input.Keyboard.currentKeyState ∧
      s'.CORE.Input.Mouse.previousButtonState = s.CORE.Input.Mouse.currentButtonState ∧
      s'.CORE.Input.Touch.previousTouchState = s.CORE.Input.Touch.currentTouchState ∧
      s'.CORE.Input.Keyboard.currentKeyState = s.CORE.Input.Keyboard.currentKeyState ∧
      s'.CORE.Input.Mouse.currentButtonState = s.CORE.Input.Mouse.currentButtonState ∧
      s'.CORE.Input.Touch.currentTouchState = s.CORE.Input.Touch.currentTouchState ∧
      (s.platform.cursorRelative = false →
        s'.CORE.Input.Mouse.previousPosition = s.CORE.Input.Mouse.currentPosition ∧
        s'.CORE.Input.Mouse.currentPosition = s.CORE.Input.Mouse.currentPosition) ∧
      (s.platform.cursorRelative = true →
        s'.CORE.Input.Mouse.currentPosition = ⟨toFloat 0, toFloat 0⟩ ∧
        s'.CORE.Input.Mouse.previousPosition = s.CORE.Input.Mouse.previousPosition) ∧
      s'.CORE.Input.Keyboard.exitKey = s.CORE.Input.Keyboard.exitKey ∧
      s'.CORE.Input.Mouse.cursor = s.CORE.Input.Mouse.cursor ∧
      s'.CORE.Input.Mouse.cursorHidden = s.CORE.Input.Mouse.cursorHidden ∧
      s'.CORE.Input.Mouse.previousWheelMove = s.CORE.Input.Mouse.previousWheelMove ∧
      s'.CORE.Window = s.CORE.Window ∧
      s'.platform = s.platform := by
  refine ⟨frameStart toFloat s, ?_, rfl, rfl, rfl, fun _ => rfl, fun _ => rfl, rfl, rfl, rfl,
    rfl, rfl, rfl, rfl, ?_, ?_, rfl, rfl, rfl, rfl, rfl, rfl⟩
  · rw [PollInputEvents_eq, if_pos (by intro e he; cases he)]
    rfl
  · intro hrel
    simp [frameStart, hrel]
  · intro hrel
    simp [frameStart, hrel]

theorem empty_poll_resets_frame_fields_witness :
    ∃ s', PollInputEvents id relativeState [] = .ok s' ∧
      s'.CORE.Input.Mouse.currentPosition = ⟨0, 0⟩ ∧
      s'.CORE.Input.Mouse.previousPosition = relativeState.CORE.Input.Mouse.previousPosition ∧
      s'.CORE.Input.Gamepad.lastButtonPressed = GAMEPAD_BUTTON_UNKNOWN :=
  let ⟨s', h⟩ := empty_poll_resets_frame_fields id relativeState
  ⟨s', h.1, (h.2.2.2.2.2.2.2.2.2.2.2.2.2.2.1 rfl).1, (h.2.2.2.2.2.2.2.2.2.2.2.2.2.2.1 rfl).2,
    h.2.2.2.2.2.2.1⟩

/-- C8 fails on the code: a mouse-button event whose button id is 0, or exceeds
`MAX_MOUSE_BUTTONS`, makes `PollInputEvents` index `currentButtonState` out of
bounds, on every state; the key-event path, in contrast, bounds-checks its
index. -/
theorem mouse_button_out_of_range_faults (s : State F) :
    PollInputEvents toFloat s [.mouseButtonDown 9] = .error .outOfBounds ∧
    PollInputEvents toFloat s [.mouseButtonDown 0] = .error .outOfBounds ∧
    PollInputEvents toFloat s [.mouseButtonUp 9] = .error .outOfBounds ∧
    PollInputEvents toFloat s [.mouseButtonUp 0] = .error .outOfBounds := by
  refine ⟨?_, ?_, ?_, ?_⟩ <;>
  · rw [PollInputEvents_eq, if_neg]
    intro h
    have hb := h _ (List.mem_singleton_self _)
    simp [eventInBounds, MAX_MOUSE_BUTTONS] at hb

/-- C10: a poll whose only event is one mouse-motion event returns; in relative
cursor mode it ends with `currentPosition` the event's relative delta and
`previousPosition` (0, 0), in absolute mode with `currentPosition` the event's
absolute position and `previousPosition` the `currentPosition` held before the
poll. -/
theorem single_motion_event_position (s : State F) (x y xrel yrel : Int) :
    ∃ s', PollInputEvents toFloat s [.mouseMotion x y xrel yrel] = .ok s' ∧
      (s.platform.cursorRelative = true →
        s'.CORE.Input.Mouse.currentPosition = ⟨toFloat xrel, toFloat yrel⟩ ∧
        s'.CORE.Input.Mouse.previousPosition = ⟨toFloat 0, toFloat 0⟩) ∧
      (s.platform.cursorRelative = false →
        s'.CORE.Input.Mouse.currentPosition = ⟨toFloat x, toFloat y⟩ ∧
        s'.CORE.Input.Mouse.previousPosition = s.CORE.Input.Mouse.currentPosition) := by
  refine ⟨_, by rw [PollInputEvents_eq, if_pos (by intro e he; simp at he; subst he; rfl)],
    ?_, ?_⟩
  · intro hrel
    simp [applyEvent, frameStart, hrel]
  · intro hrel
    simp [applyEvent, frameStart, hrel]

theorem single_motion_event_position_witness :
    ∃ s', PollInputEvents id relativeState [.mouseMotion 100 200 3 (-4)] = .ok s' ∧
      s'.CORE.Input.Mouse.currentPosition = ⟨3, -4⟩ ∧
      s'.CORE.Input.Mouse.previousPosition = ⟨0, 0⟩ :=
  let ⟨s', h⟩ := single_motion_event_position id relativeState 100 200 3 (-4)
  ⟨s', h.1, h.2.1 rfl⟩

/-! ## Events that write nothing, mouse buttons, and the per-frame accumulators -/

/-- C15: window events, gamepad-axis-motion events (any device, any axis) and
events of every kind the `switch` has no `case` for mutate no state: a poll has
the same outcome as the poll of the same sequence with those events removed, and
both return a state when the accesses of the sequence are in bounds. -/
theorem inert_events_mutate_nothing (s : State F) (pending : List SDL_Event) :
    PollInputEvents toFloat s pending =
        PollInputEvents toFloat s (pending.filter fun e => !inertEvent e) ∧
      (InBounds s.CORE.Input.Keyboard.exitKey pending →
        ∃ s', PollInputEvents toFloat s pending = .ok s' ∧
          PollInputEvents toFloat s (pending.filter fun e => !inertEvent e) = .ok s') := by
  have heq : PollInputEvents toFloat s pending =
      PollInputEvents toFloat s (pending.filter fun e => !inertEvent e) := by
    rw [PollInputEvents_eq, PollInputEvents_eq,
      foldl_filter_of_fixed (applyEvent toFloat) inertEvent (applyEvent_inert toFloat)]
    by_cases h : InBounds s.CORE.Input.Keyboard.exitKey pending
    · rw [if_pos h, if_pos ((InBounds_filter_inert _ _).2 h)]
    · rw [if_neg h, if_neg (fun h2 => h ((InBounds_filter_inert _ _).1 h2))]
  refine ⟨heq, fun h => ?_⟩
  have hp : PollInputEvents toFloat s pending =
      .ok (pending.foldl (applyEvent toFloat) (frameStart toFloat s)) := by
    rw [PollInputEvents_eq, if_pos h]
  exact ⟨_, hp, heq ▸ hp⟩

theorem inert_events_mutate_nothing_witness :
    ∃ s', PollInputEvents id idleState
        [.window 3, .keyDown 4, .joyAxisMotion 1 5, .other 1024, .mouseButtonDown 1] = .ok s' ∧
      PollInputEvents id idleState
        ([SDL_Event.window 3, .keyDown 4, .joyAxisMotion 1 5, .other 1024,
          .mouseButtonDown 1].filter fun e => !inertEvent e) = .ok s' :=
  (inert_events_mutate_nothing id idleState
    [.window 3, .keyDown 4, .joyAxisMotion 1 5, .other 1024, .mouseButtonDown 1]).2 (by decide)

/-- C17: every entry of the `ScancodeToKey` table is a key value in
`[0, MAX_KEYBOARD_KEYS)`, so the store to `currentKeyState` at the result of
`ConvertScancodeToKey` is in bounds for every scancode; the key-up and key-down
handlers change `currentKeyState` only at that result and only when it is not
`KEY_NULL`, and a poll never changes the element at index `KEY_NULL`. -/
theorem key_writes_in_bounds_and_never_at_null (s : State F) (scancode : Int)
    (pending : List SDL_Event) :
    (∀ key ∈ ScancodeToKey, 0 ≤ key ∧ key < MAX_KEYBOARD_KEYS) ∧
    (∀ (keys : CArray MAX_KEYBOARD_KEYS) (v : Int),
      ∃ keys', writeAt keys (ConvertScancodeToKey scancode) v = .ok keys') ∧
    (∃ s', processEvent toFloat s (.keyUp scancode) = .ok s' ∧
      ∀ j : Fin MAX_KEYBOARD_KEYS,
        ConvertScancodeToKey scancode = KEY_NULL ∨
          (j.val : Int) ≠ ConvertScancodeToKey scancode →
        s'.CORE.Input.Keyboard.currentKeyState j = s.CORE.Input.Keyboard.currentKeyState j) ∧
    (0 ≤ s.CORE.Input.Keyboard.exitKey ∧ s.CORE.Input.Keyboard.exitKey < MAX_KEYBOARD_KEYS →
      ∃ s', processEvent toFloat s (.keyDown scancode) = .ok s' ∧
        ∀ j : Fin MAX_KEYBOARD_KEYS,
          ConvertScancodeToKey scancode = KEY_NULL ∨
            (j.val : Int) ≠ ConvertScancodeToKey scancode →
          s'.CORE.Input.Keyboard.currentKeyState j =
            s.CORE.Input.Keyboard.currentKeyState j) ∧
    (InBounds s.CORE.Input.Keyboard.exitKey pending →
      ∃ s', PollInputEvents toFloat s pending = .ok s' ∧
        ∀ z : Fin MAX_KEYBOARD_KEYS, (z.val : Int) = KEY_NULL →
          s'.CORE.Input.Keyboard.currentKeyState z =
            s.CORE.Input.Keyboard.currentKeyState z) := by
  have hr := ConvertScancodeToKey_range scancode
  have hstep : ∀ (e : SDL_Event), (e = .keyUp scancode ∨ e = .keyDown scancode) →
      ∀ j : Fin MAX_KEYBOARD_KEYS,
        ConvertScancodeToKey scancode = KEY_NULL ∨
          (j.val : Int) ≠ ConvertScancodeToKey scancode →
        (applyEvent toFloat s e).CORE.Input.Keyboard.currentKeyState j =
          s.CORE.Input.Keyboard.currentKeyState j := by
    intro e he j hj
    rw [applyEvent_keys]
    rcases he with rfl | rfl <;> rcases hj with hj | hj
    · simp [keysAfter, hj]
    · simp only [keysAfter]
      split
      · simp [stored, hj]
      · rfl
    · simp [keysAfter, hj]
    · simp only [keysAfter]
      split
      · simp [stored, hj]
      · rfl
  refine ⟨table_entries_range, ?_, ⟨_, ?_, hstep _ (Or.inl rfl)⟩, ?_, ?_⟩
  · intro keys v
    exact ⟨_, by rw [writeAt_eq, if_pos hr]⟩
  · rw [processEvent_eq]
    rfl
  · intro hx
    refine ⟨_, ?_, hstep _ (Or.inr rfl)⟩
    rw [processEvent_eq, if_pos (by simp [eventInBounds, hx])]
  · intro h
    refine ⟨_, by rw [PollInputEvents_eq, if_pos h], ?_⟩
    intro z hz
    exact foldl_key_null toFloat pending (frameStart toFloat s) z hz

theorem key_writes_in_bounds_and_never_at_null_witness :
    ∃ s', PollInputEvents id heldExitState [.keyDown 0, .keyUp 1000, .keyDown (-7), .keyUp 4]
        = .ok s' ∧
      ∀ z : Fin MAX_KEYBOARD_KEYS, (z.val : Int) = KEY_NULL →
        s'.CORE.Input.Keyboard.currentKeyState z =
          heldExitState.CORE.Input.Keyboard.currentKeyState z :=
  (key_writes_in_bounds_and_never_at_null id heldExitState 0
    [.keyDown 0, .keyUp 1000, .keyDown (-7), .keyUp 4]).2.2.2.2 (by decide)

end Claims

/-! ## Window state flags -/

section WindowClaims

variable {F : Type}

/-- C18 fails on the code: with `FLAG_WINDOW_TOPMOST` in the mask,
`SetWindowState` issues `SDL_SetWindowAlwaysOnTop` with `SDL_FALSE`, the very
request `ClearWindowState` issues, and never with `SDL_TRUE`; the other
supported flags (here resizable, undecorated, vsync) issue opposite requests in
the two functions, and `ToggleBorderlessWindowed` passes `SDL_TRUE` when it sets
`FLAG_WINDOW_TOPMOST`. -/
theorem SetWindowState_topmost_turns_always_on_top_off (d : Desktop F) :
    (SetWindowState FLAG_WINDOW_TOPMOST d).calls =
      d.calls ++ [.SDL_SetWindowAlwaysOnTop false] ∧
    (ClearWindowState FLAG_WINDOW_TOPMOST d).calls =
      d.calls ++ [.SDL_SetWindowAlwaysOnTop false] ∧
    (∀ flags, flags &&& FLAG_WINDOW_TOPMOST ≠ 0 →
      Call.SDL_SetWindowAlwaysOnTop true ∉ d.calls →
      Call.SDL_SetWindowAlwaysOnTop true ∉ (SetWindowState flags d).calls ∧
        Call.SDL_SetWindowAlwaysOnTop false ∈ (SetWindowState flags d).calls) ∧
    (SetWindowState FLAG_WINDOW_RESIZABLE d).calls =
      d.calls ++ [.SDL_SetWindowResizable true] ∧
    (ClearWindowState FLAG_WINDOW_RESIZABLE d).calls =
      d.calls ++ [.SDL_SetWindowResizable false] ∧
    (SetWindowState FLAG_WINDOW_UNDECORATED d).calls =
      d.calls ++ [.SDL_SetWindowBordered false] ∧
    (ClearWindowState FLAG_WINDOW_UNDECORATED d).calls =
      d.calls ++ [.SDL_SetWindowBordered true] ∧
    (SetWindowState FLAG_VSYNC_HINT d).calls = d.calls ++ [.SDL_GL_SetSwapInterval 1] ∧
    (ClearWindowState FLAG_VSYNC_HINT d).calls = d.calls ++ [.SDL_GL_SetSwapInterval 0] ∧
    (∀ (IsWindowState : State F → Nat → Bool) (sdl : SDLQueries),
      d.window.fullscreen = false →
      IsWindowState d.globals FLAG_BORDERLESS_WINDOWED_MODE = false →
      Call.SDL_SetWindowAlwaysOnTop true ∈
          (ToggleBorderlessWindowed IsWindowState sdl d).calls ∧
        (ToggleBorderlessWindowed IsWindowState sdl d).globals.CORE.Window.flags =
          d.globals.CORE.Window.flags ||| FLAG_WINDOW_UNDECORATED ||| FLAG_WINDOW_TOPMOST |||
            FLAG_BORDERLESS_WINDOWED_MODE) := by
  refine ⟨rfl, rfl, ?_, rfl, rfl, rfl, rfl, rfl, rfl, ?_⟩
  · intro flags hf hd
    rw [SetWindowState_alwaysOnTop, SetWindowState_alwaysOnTop]
    exact ⟨fun h => h.elim hd (fun h2 => absurd h2.2 (by decide)), Or.inr ⟨hf, rfl⟩⟩
  · intro IsWindowState sdl hfs hb
    unfold ToggleBorderlessWindowed
    simp only [hfs, Bool.false_eq_true, if_false, hb, Bool.not_false, if_true]
    cases sdl.SDL_GetDisplayBounds sdl.SDL_GetWindowDisplayIndex <;> simp [Desktop.issue]

/-- C19: on 32-bit flag words, `SetWindowState(f)` leaves
`CORE.Window.flags = w | f` and `ClearWindowState(f)` leaves
`CORE.Window.flags = w & ~f` (bit `i` of the result is bit `i` of `w` and not
bit `i` of `f`).  Each is idempotent on the flags, neither changes a bit outside
`f`, and `ClearWindowState(f)` after `SetWindowState(f)` yields `w & ~f`, which
is `w` exactly when `w` has no bit of `f` set. -/
theorem window_flags_set_and_clear (d : Desktop F) (f : Nat)
    (hw : d.globals.CORE.Window.flags < 2 ^ 32) (hf : f < 2 ^ 32) :
    (SetWindowState f d).globals.CORE.Window.flags = d.globals.CORE.Window.flags ||| f ∧
    (SetWindowState f d).globals.CORE.Window.flags < 2 ^ 32 ∧
    (ClearWindowState f d).globals.CORE.Window.flags =
      d.globals.CORE.Window.flags &&& uintNot f ∧
    (ClearWindowState f d).globals.CORE.Window.flags < 2 ^ 32 ∧
    (∀ i, (ClearWindowState f d).globals.CORE.Window.flags.testBit i =
      (d.globals.CORE.Window.flags.testBit i && !f.testBit i)) ∧
    (SetWindowState f (SetWindowState f d)).globals.CORE.Window.flags =
      (SetWindowState f d).globals.CORE.Window.flags ∧
    (ClearWindowState f (ClearWindowState f d)).globals.CORE.Window.flags =
      (ClearWindowState f d).globals.CORE.Window.flags ∧
    (∀ i, f.testBit i = false →
      (SetWindowState f d).globals.CORE.Window.flags.testBit i =
          d.globals.CORE.Window.flags.testBit i ∧
        (ClearWindowState f d).globals.CORE.Window.flags.testBit i =
          d.globals.CORE.Window.flags.testBit i) ∧
    (ClearWindowState f (SetWindowState f d)).globals.CORE.Window.flags =
      d.globals.CORE.Window.flags &&& uintNot f ∧
    ((ClearWindowState f (SetWindowState f d)).globals.CORE.Window.flags =
        d.globals.CORE.Window.flags ↔
      d.globals.CORE.Window.flags &&& f = 0) := by
  simp only [SetWindowState_flags, ClearWindowState_flags]
  refine ⟨trivial, Nat.or_lt_two_pow hw hf, trivial, and_uintNot_lt _ f hw,
    fun i => testBit_and_uintNot _ f i hw, ?_, ?_, ?_, or_and_uintNot _ f hw hf, ?_⟩
  · apply Nat.eq_of_testBit_eq
    intro i
    simp only [Nat.testBit_or]
    cases d.globals.CORE.Window.flags.testBit i <;> cases f.testBit i <;> rfl
  · apply Nat.eq_of_testBit_eq
    intro i
    rw [testBit_and_uintNot _ f i (and_uintNot_lt _ f hw), testBit_and_uintNot _ f i hw]
    cases d.globals.CORE.Window.flags.testBit i <;> cases f.testBit i <;> rfl
  · intro i hi
    rw [Nat.testBit_or, testBit_and_uintNot _ f i hw, hi]
    cases d.globals.CORE.Window.flags.testBit i <;> exact ⟨rfl, rfl⟩
  · rw [or_and_uintNot _ f hw hf]
    exact and_uintNot_eq_self_iff _ f hw

theorem window_flags_set_and_clear_witness :
    idleDesktop.globals.CORE.Window.flags < 2 ^ 32 ∧
    FLAG_WINDOW_RESIZABLE ||| FLAG_VSYNC_HINT < 2 ^ 32 ∧
    (SetWindowState (FLAG_WINDOW_RESIZABLE ||| FLAG_VSYNC_HINT)
        idleDesktop).globals.CORE.Window.flags =
      idleDesktop.globals.CORE.Window.flags ||| (FLAG_WINDOW_RESIZABLE ||| FLAG_VSYNC_HINT) :=
  ⟨by decide, by decide,
    (window_flags_set_and_clear idleDesktop (FLAG_WINDOW_RESIZABLE ||| FLAG_VSYNC_HINT)
      (by decide) (by decide)).1⟩

end WindowClaims

/-! ## Scancode translation -/

/-- C2: `ConvertScancodeToKey` returns `KEY_NULL` for scancode 0, for every
scancode of 100 or more, for every negative scancode, and for every in-range
scancode whose table slot holds the unused value 0; the slots 1, 2, 3 and 50
are such slots. -/
theorem ConvertScancodeToKey_unresolved (sdlScancode : Int) :
    (sdlScancode = 0 ∨ 100 ≤ sdlScancode ∨ sdlScancode < 0 →
      ConvertScancodeToKey sdlScancode = KEY_NULL) ∧
    (0 ≤ sdlScancode ∧ sdlScancode < 100 ∧ ScancodeToKey.getD sdlScancode.toNat 0 = 0 →
      ConvertScancodeToKey sdlScancode = KEY_NULL) ∧
    (sdlScancode = 1 ∨ sdlScancode = 2 ∨ sdlScancode = 3 ∨ sdlScancode = 50 →
      ScancodeToKey.getD sdlScancode.toNat 0 = 0 ∧
        ConvertScancodeToKey sdlScancode = KEY_NULL) := by
  refine ⟨?_, ?_, ?_⟩
  · rintro (h | h | h)
    · subst h; decide
    · have : ¬ (0 ≤ sdlScancode ∧ sdlScancode < SCANCODE_MAPPED_NUM) := by
        simp only [SCANCODE_MAPPED_NUM]; omega
      simp [ConvertScancodeToKey, this]
    · have : ¬ (0 ≤ sdlScancode ∧ sdlScancode < SCANCODE_MAPPED_NUM) := by omega
      simp [ConvertScancodeToKey, this]
  · rintro ⟨h0, h1, hz⟩
    have : 0 ≤ sdlScancode ∧ sdlScancode < SCANCODE_MAPPED_NUM := by
      simp only [SCANCODE_MAPPED_NUM]; omega
    rw [ConvertScancodeToKey, if_pos this, hz]
    rfl
  · rintro (h | h | h | h) <;> subst h <;> decide

theorem ConvertScancodeToKey_unresolved_witness :
    ScancodeToKey.getD (50 : Int).toNat 0 = 0 ∧ ConvertScancodeToKey 50 = KEY_NULL :=
  (ConvertScancodeToKey_unresolved 50).2.2 (by decide)

/-- C3: the table has exactly 100 entries and no off-by-one: scancodes 4..29
give the letters `KEY_A + (s - 4)`, 30..38 give `KEY_ONE + (s - 30)`, 39 gives
`KEY_ZERO`, 58..69 give `KEY_F1 + (s - 58)`, 89..97 give `KEY_KP_1 + (s - 89)`,
98 gives `KEY_KP_0` and 99 gives `KEY_KP_DECIMAL`; each of the other mapped
scancodes (40..49, 51..57, 70..88) gives the key next to whose entry the table
comment names it. -/
theorem ConvertScancodeToKey_mapped (s : Int) :
    (4 ≤ s ∧ s ≤ 29 → ConvertScancodeToKey s = KEY_A + (s - 4)) ∧
    (30 ≤ s ∧ s ≤ 38 → ConvertScancodeToKey s = KEY_ONE + (s - 30)) ∧
    ConvertScancodeToKey 39 = KEY_ZERO ∧
    (58 ≤ s ∧ s ≤ 69 → ConvertScancodeToKey s = KEY_F1 + (s - 58)) ∧
    (89 ≤ s ∧ s ≤ 97 → ConvertScancodeToKey s = KEY_KP_1 + (s - 89)) ∧
    ConvertScancodeToKey 98 = KEY_KP_0 ∧
    ConvertScancodeToKey 99 = KEY_KP_DECIMAL ∧
    ScancodeToKey.length = 100 ∧ SCANCODE_MAPPED_NUM = 100 ∧
    ConvertScancodeToKey SDL_SCANCODE_RETURN = KEY_ENTER ∧
    ConvertScancodeToKey SDL_SCANCODE_ESCAPE = KEY_ESCAPE ∧
    ConvertScancodeToKey SDL_SCANCODE_BACKSPACE = KEY_BACKSPACE ∧
    ConvertScancodeToKey SDL_SCANCODE_TAB = KEY_TAB ∧
    ConvertScancodeToKey SDL_SCANCODE_SPACE = KEY_SPACE ∧
    ConvertScancodeToKey SDL_SCANCODE_MINUS = KEY_MINUS ∧
    ConvertScancodeToKey SDL_SCANCODE_EQUALS = KEY_EQUAL ∧
    ConvertScancodeToKey SDL_SCANCODE_LEFTBRACKET = KEY_LEFT_BRACKET ∧
    ConvertScancodeToKey SDL_SCANCODE_RIGHTBRACKET = KEY_RIGHT_BRACKET ∧
    ConvertScancodeToKey SDL_SCANCODE_BACKSLASH = KEY_BACKSLASH ∧
    ConvertScancodeToKey SDL_SCANCODE_SEMICOLON = KEY_SEMICOLON ∧
    ConvertScancodeToKey SDL_SCANCODE_APOSTROPHE = KEY_APOSTROPHE ∧
    ConvertScancodeToKey SDL_SCANCODE_GRAVE = KEY_GRAVE ∧
    ConvertScancodeToKey SDL_SCANCODE_COMMA = KEY_COMMA ∧
    ConvertScancodeToKey SDL_SCANCODE_PERIOD = KEY_PERIOD ∧
    ConvertScancodeToKey SDL_SCANCODE_SLASH = KEY_SLASH ∧
    ConvertScancodeToKey SDL_SCANCODE_CAPSLOCK = KEY_CAPS_LOCK ∧
    ConvertScancodeToKey SDL_SCANCODE_PRINTSCREEN = KEY_PRINT_SCREEN ∧
    ConvertScancodeToKey SDL_SCANCODE_SCROLLLOCK = KEY_SCROLL_LOCK ∧
    ConvertScancodeToKey SDL_SCANCODE_PAUSE = KEY_PAUSE ∧
    ConvertScancodeToKey SDL_SCANCODE_INSERT = KEY_INSERT ∧
    ConvertScancodeToKey SDL_SCANCODE_HOME = KEY_HOME ∧
    ConvertScancodeToKey SDL_SCANCODE_PAGEUP = KEY_PAGE_UP ∧
    ConvertScancodeToKey SDL_SCANCODE_DELETE = KEY_DELETE ∧
    ConvertScancodeToKey SDL_SCANCODE_END = KEY_END ∧
    ConvertScancodeToKey SDL_SCANCODE_PAGEDOWN = KEY_PAGE_DOWN ∧
    ConvertScancodeToKey SDL_SCANCODE_RIGHT = KEY_RIGHT ∧
    ConvertScancodeToKey SDL_SCANCODE_LEFT = KEY_LEFT ∧
    ConvertScancodeToKey SDL_SCANCODE_DOWN = KEY_DOWN ∧
    ConvertScancodeToKey SDL_SCANCODE_UP = KEY_UP ∧
    ConvertScancodeToKey SDL_SCANCODE_NUMLOCKCLEAR = KEY_NUM_LOCK ∧
    ConvertScancodeToKey SDL_SCANCODE_KP_DIVIDE = KEY_KP_DIVIDE ∧
    ConvertScancodeToKey SDL_SCANCODE_KP_MULTIPLY = KEY_KP_MULTIPLY ∧
    ConvertScancodeToKey SDL_SCANCODE_KP_MINUS = KEY_KP_SUBTRACT ∧
    ConvertScancodeToKey SDL_SCANCODE_KP_PLUS = KEY_KP_ADD ∧
    ConvertScancodeToKey SDL_SCANCODE_KP_ENTER = KEY_KP_ENTER := by
  refine ⟨?_, ?_, by decide, ?_, ?_, by decide, by decide, by decide, rfl, ?_⟩
  · rintro ⟨h0, h1⟩; interval_cases s <;> decide
  · rintro ⟨h0, h1⟩; interval_cases s <;> decide
  · rintro ⟨h0, h1⟩; interval_cases s <;> decide
  · rintro ⟨h0, h1⟩; interval_cases s <;> decide
  · decide

theorem ConvertScancodeToKey_mapped_witness :
    ConvertScancodeToKey 29 = KEY_A + (29 - 4) :=
  (ConvertScancodeToKey_mapped 29).1 (by decide)

/-- C20: `ConvertScancodeToKey` is injective on resolved scancodes: two
different scancodes in [0, 100) whose results both differ from `KEY_NULL` have
different results; the in-range scancodes that do not resolve are exactly 0, 1,
2, 3 and 50. -/
theorem ConvertScancodeToKey_injective (s1 s2 : Int) :
    (0 ≤ s1 ∧ s1 < 100 → 0 ≤ s2 ∧ s2 < 100 → s1 ≠ s2 →
      ConvertScancodeToKey s1 ≠ KEY_NULL → ConvertScancodeToKey s2 ≠ KEY_NULL →
      ConvertScancodeToKey s1 ≠ ConvertScancodeToKey s2) ∧
    (0 ≤ s1 ∧ s1 < 100 →
      (ConvertScancodeToKey s1 = KEY_NULL ↔
        s1 = 0 ∨ s1 = 1 ∨ s1 = 2 ∨ s1 = 3 ∨ s1 = 50)) := by
  constructor
  · intro h1 h2 hne hn1 hn2 heq
    rw [ConvertScancodeToKey_of_lt s1 h1.1 h1.2] at hn1 heq
    rw [ConvertScancodeToKey_of_lt s2 h2.1 h2.2] at hn2 heq
    have i1 := table_indexOf s1.toNat (by omega) hn1
    have i2 := table_indexOf s2.toNat (by omega) hn2
    rw [heq, i2] at i1
    omega
  · intro h1
    rw [ConvertScancodeToKey_of_lt s1 h1.1 h1.2]
    have := table_unused_slots s1.toNat (by omega)
    simp only [KEY_NULL]
    rw [this]
    omega

theorem ConvertScancodeToKey_injective_witness :
    ConvertScancodeToKey 30 ≠ ConvertScancodeToKey 89 :=
  (ConvertScancodeToKey_injective 30 89).1 (by decide) (by decide) (by decide) (by decide)
    (by decide)

/-! ## Window icon -/

theorem wrapInt_of_fits (x : Int) (h0 : 0 ≤ x) (h1 : x ≤ 2147483647) : wrapInt x = x := by
  unfold wrapInt
  omega

theorem SetWindowIcon_of_some (surfaceCreated : Bool) (image : Image) (f : IconSurface)
    (h : iconSurfaceOf image = some f) :
    SetWindowIcon surfaceCreated image =
      .SDL_CreateRGBSurfaceFrom image.width image.height f.depth f.pitch
          f.rmask f.gmask f.bmask f.amask ::
        (if surfaceCreated then [.SDL_SetWindowIcon, .SDL_FreeSurface] else []) := by
  unfold SetWindowIcon
  rw [h]
  cases surfaceCreated <;> rfl

/-- C21, as stated, fails: for the accepted format
`PIXELFORMAT_UNCOMPRESSED_R32G32B32A32` (depth 128) and the width 134217728
(`wideImage`), the `int` product `image.width * 16` does not fit 32 bits, and the pitch handed to
`SDL_CreateRGBSurfaceFrom` is -2147483648, not `w * depth / 8 = 2147483648`. -/
theorem SetWindowIcon_pitch_wraps :
    wideImage.format ∈ iconFormats ∧
    0 ≤ wideImage.width ∧
    SetWindowIcon true wideImage =
      [.SDL_CreateRGBSurfaceFrom 134217728 1 128 (-2147483648)
          0xFFFFFFFF 0xFFFFFFFF 0xFFFFFFFF 0xFFFFFFFF,
        .SDL_SetWindowIcon, .SDL_FreeSurface] ∧
    wideImage.width * 128 / 8 = 2147483648 ∧
    (-2147483648 : Int) ≠ wideImage.width * 128 / 8 := by
  decide

/-- C21, amended: for every pixel format `SetWindowIcon` has a `case` for and
every image width `w >= 0`, the surface it requests has a depth that is a
multiple of 8 bits (one of 8, 16, 24, 32, 48, 64, 96, 128) and, when
`w * depth / 8` fits an `int` (is at most 2147483647), a pitch of exactly
`w * depth / 8` bytes; for every other format it makes no call at all. -/
theorem SetWindowIcon_depth_and_pitch (surfaceCreated : Bool) (image : Image) :
    (image.format ∈ iconFormats → 0 ≤ image.width →
      ∃ f, iconSurfaceOf image = some f ∧
        SetWindowIcon surfaceCreated image =
          .SDL_CreateRGBSurfaceFrom image.width image.height f.depth f.pitch
              f.rmask f.gmask f.bmask f.amask ::
            (if surfaceCreated then [.SDL_SetWindowIcon, .SDL_FreeSurface] else []) ∧
        f.depth ∈ [8, 16, 24, 32, 48, 64, 96, 128] ∧
        f.depth % 8 = 0 ∧
        (image.width * f.depth / 8 ≤ 2147483647 → f.pitch = image.width * f.depth / 8)) ∧
    (image.format ∉ iconFormats → SetWindowIcon surfaceCreated image = []) := by
  obtain ⟨w, h, m, fmt⟩ := image
  constructor
  · intro hf hw
    simp only [iconFormats, List.mem_cons, List.mem_singleton, List.not_mem_nil, or_false] at hf
    have key : ∀ f : IconSurface, iconSurfaceOf ⟨w, h, m, fmt⟩ = some f →
        f.depth ∈ [8, 16, 24, 32, 48, 64, 96, 128] →
        f.depth % 8 = 0 →
        (w * f.depth / 8 ≤ 2147483647 → f.pitch = w * f.depth / 8) →
        ∃ f, iconSurfaceOf ⟨w, h, m, fmt⟩ = some f ∧
          SetWindowIcon surfaceCreated ⟨w, h, m, fmt⟩ =
            .SDL_CreateRGBSurfaceFrom w h f.depth f.pitch f.rmask f.gmask f.bmask f.amask ::
              (if surfaceCreated then [.SDL_SetWindowIcon, .SDL_FreeSurface] else []) ∧
          f.depth ∈ [8, 16, 24, 32, 48, 64, 96, 128] ∧
          f.depth % 8 = 0 ∧
          (w * f.depth / 8 ≤ 2147483647 → f.pitch = w * f.depth / 8) :=
      fun f hs h1 h2 h3 => ⟨f, hs, SetWindowIcon_of_some surfaceCreated _ f hs, h1, h2, h3⟩
    have hw0 : 0 ≤ w := hw
    clear hw
    rcases hf with rfl | rfl | rfl | rfl | rfl | rfl | rfl | rfl | rfl | rfl | rfl | rfl | rfl
    all_goals
      refine key _ rfl ?_ ?_ ?_
      · dsimp only
        decide
      · dsimp only
        decide
      · dsimp only
        intro hfit
        first
          | omega
          | (rw [wrapInt_of_fits _ (by omega) (by omega)]; omega)
  · intro hf
    simp only [iconFormats, List.mem_cons, List.mem_singleton, List.not_mem_nil, or_false,
      not_or] at hf
    obtain ⟨h1, h2, h3, h4, h5, h6, h7, h8, h9, h10, h11, h12, h13⟩ := hf
    simp [SetWindowIcon, iconSurfaceOf, h1, h2, h3, h4, h5, h6, h7, h8, h9, h10, h11, h12, h13]

theorem SetWindowIcon_depth_and_pitch_witness :
    squareIcon.format ∈ iconFormats ∧
    0 ≤ squareIcon.width ∧
    ∃ f, iconSurfaceOf squareIcon = some f ∧
      SetWindowIcon true squareIcon =
        .SDL_CreateRGBSurfaceFrom squareIcon.width squareIcon.height f.depth f.pitch
            f.rmask f.gmask f.bmask f.amask ::
          (if true = true then [.SDL_SetWindowIcon, .SDL_FreeSurface] else []) ∧
      f.depth ∈ [8, 16, 24, 32, 48, 64, 96, 128] ∧
      f.depth % 8 = 0 ∧
      (squareIcon.width * f.depth / 8 ≤ 2147483647 →
        f.pitch = squareIcon.width * f.depth / 8) :=
  ⟨by decide, by decide,
    (SetWindowIcon_depth_and_pitch true squareIcon).1 (by decide) (by decide)⟩

end RcoreDesktopSDL
